import Mathlib

/-!
# Bitfighter `zap/moveObject.cpp`: movement, collision response and interpolation

A shallow embedding of `Item` / `MoveObject` from `src/zap/moveObject.cpp`.

Conventions of the embedding

* `F32` values are idealised as exact rationals (`ℚ`): float literals become the decimal
  fraction they denote (`0.9f` is `9/10`), and rounding is not modelled.
* `sqrtf` is not rational, so it is a field of the environment `Env`; theorems that depend
  on the value of a square root say so in a hypothesis on `env.sqrt`.
* Pointers to game objects are indices into the object list of a `World`; an index outside
  the list stands for no object, and objects are not deleted while `move` runs, so every
  `SafePtr` of `disabledList` stays valid.
* Code of the repository that is declared outside `moveObject.cpp` (geometry helpers, the
  spatial database, virtual hooks of other classes, header constants) is a field of `Env`.
  The hooks are functions of their arguments: `collide` only answers, and
  `SpeedZone::collided` only rewrites the slot of the mover.
* `getCollisionCircle(stateIndex, pos, radius)` yields the position of the slot and `mRadius`.
* Sound, particle and damage notifications do not touch the modelled state and are left out.
* A recursive `move` is modelled with two fuels: one for the nesting depth of displacement
  pushes, one for the number of loop iterations of a single call.
* `World.findFirstCollisionCalls` is an instrumentation counter, not a variable of the program.
-/

namespace Zap

/-! ## Data model -/

/-- Modelled from the spec: `Point` (declared in `Point.h`, outside the analysed sources) is a
2-D vector of floats. -/
structure Point where
  x : ℚ
  y : ℚ
deriving DecidableEq, Inhabited

namespace Point

/-- The zero vector, as produced by `Point()` and `set(0,0)`. -/
def zero : Point := ⟨0, 0⟩

/-- The sum `a + b`. -/
def add (a b : Point) : Point := ⟨a.x + b.x, a.y + b.y⟩

/-- The difference `a - b`. -/
def sub (a b : Point) : Point := ⟨a.x - b.x, a.y - b.y⟩

/-- The product `a * k` of a vector with a scalar. -/
def scale (a : Point) (k : ℚ) : Point := ⟨a.x * k, a.y * k⟩

/-- The dot product `a.dot(b)`. -/
def dot (a b : Point) : ℚ := a.x * b.x + a.y * b.y

/-- The squared length `a.lenSquared()`. -/
def lenSquared (a : Point) : ℚ := a.x * a.x + a.y * a.y

/-- The length `a.len()`, through the square root of the environment. -/
def len (sqrt : ℚ → ℚ) (a : Point) : ℚ := sqrt a.lenSquared

/-- Modelled from the spec: `normalize()` rescales a vector to unit length by dividing by its
length. The result for a vector of length zero is not fixed by the analysed sources; here it
follows the convention `x / 0 = 0`, and no theorem below depends on it. -/
def normalize (sqrt : ℚ → ℚ) (a : Point) : Point := a.scale (1 / a.len sqrt)

end Point

/-- One time-slot of a `MoveObject`: position, velocity and heading. -/
structure MoveState where
  pos : Point
  vel : Point
  angle : ℚ
deriving DecidableEq, Inhabited

/-- The index of a time-slot, `0-ActualState, 1-RenderState, 2-LastProcessState`. -/
inductive StateIndex where
  | ActualState
  | RenderState
  | LastProcessState
deriving DecidableEq, Inhabited

/-- A game object. Every object carries the fields of `Item` and `MoveObject`; an object that
is not a `MoveObject` (a barrier, a speed zone) does not use them. `collisionEnabled` is modelled
from the spec (`isCollisionEnabled`, `disableCollision`, `enableCollision` are declared outside
the analysed sources). -/
structure GameObject where
  isMoveObject : Bool
  objectTypeNumber : Nat
  collisionEnabled : Bool
  actual : MoveState
  render : MoveState
  lastProcess : MoveState
  mRadius : ℚ
  mMass : ℚ
  mItemId : Nat
  mHitLimit : Int
  mInterpolating : Bool
  mCurrentMoveTime : Nat
deriving DecidableEq, Inhabited

namespace GameObject

/-- Read `mMoveState[stateIndex]`. -/
def state (o : GameObject) : StateIndex → MoveState
  | StateIndex.ActualState => o.actual
  | StateIndex.RenderState => o.render
  | StateIndex.LastProcessState => o.lastProcess

/-- Write `mMoveState[stateIndex]`. -/
def setState (o : GameObject) (stateIndex : StateIndex) (m : MoveState) : GameObject :=
  match stateIndex with
  | StateIndex.ActualState => { o with actual := m }
  | StateIndex.RenderState => { o with render := m }
  | StateIndex.LastProcessState => { o with lastProcess := m }

/-- Write `mMoveState[stateIndex].pos`. -/
def setPos (o : GameObject) (stateIndex : StateIndex) (p : Point) : GameObject :=
  o.setState stateIndex { o.state stateIndex with pos := p }

/-- Write `mMoveState[stateIndex].vel`. -/
def setVel (o : GameObject) (stateIndex : StateIndex) (v : Point) : GameObject :=
  o.setState stateIndex { o.state stateIndex with vel := v }

/-- Modelled from the spec: `disableCollision()` (declared outside the analysed sources) switches
the collision flag of the object off. -/
def disableCollision (o : GameObject) : GameObject := { o with collisionEnabled := false }

/-- Modelled from the spec: `enableCollision()` (declared outside the analysed sources) switches
the collision flag of the object on. -/
def enableCollision (o : GameObject) : GameObject := { o with collisionEnabled := true }

end GameObject

/-- The program state: the objects of the game, addressed by index, and two instrumentation
values that the program does not have: the number of calls of `findFirstCollision` made so
far, and the entities that have made a recursive displacement push so far, one entry for each
push, in order. -/
structure World where
  objs : List GameObject
  findFirstCollisionCalls : Nat
  displacementPushes : List Nat := []
deriving DecidableEq, Inhabited

namespace World

/-- Dereference an object pointer. -/
def obj (w : World) (i : Nat) : GameObject := w.objs.getD i default

/-- Update one object in place. -/
def modify (w : World) (i : Nat) (f : GameObject → GameObject) : World :=
  { w with objs := w.objs.modify f i }

end World

/-- Modelled from the spec: the query region (`Rect`, declared outside the analysed sources),
as its two corners. -/
structure Rect where
  min : Point
  max : Point
deriving DecidableEq, Inhabited

namespace Rect

/-- The rectangle spanned by two points, `Rect(p1, p2)`. -/
def ofPoints (p1 p2 : Point) : Rect :=
  ⟨⟨Min.min p1.x p2.x, Min.min p1.y p2.y⟩, ⟨Max.max p1.x p2.x, Max.max p1.y p2.y⟩⟩

/-- The call `expand(d)`: pad the rectangle by `d` on every side. -/
def expand (r : Rect) (d : Point) : Rect := ⟨r.min.sub d, r.max.add d⟩

end Rect

/-- The collaborators of `moveObject.cpp` that are declared elsewhere in the repository
or in libraries.

* `sqrt`: `sqrtf`, used by `Point::len`.
* `findObjects`: the spatial query; the flag says whether the asteroid test function is used.
* `isAsteroid`: `dynamic_cast<Asteroid *>(this)` succeeds.
* `getCollisionPoly`: the collision polygon of an object, when it has one.
* `polygonSweptCircleIntersect poly pos delta radius`: contact point and fraction.
* `findLowestRootInInterval a b c upper`: the root found, when there is one.
* `collide a b`: the virtual `a->collide(b)`.
* `isCollideableType`, `SpeedZoneTypeNumber`: the object type tests.
* `isSpeedZone`: `dynamic_cast<SpeedZone *>(objectHit)` succeeds.
* `speedZoneCollided zone mover stateIndex`: the slot of the mover after
  `speedZone->collided(this, stateIndex)`.
* `InterpMaxVelocity`, `InterpAcceleration`: constants of `moveObject.h`. -/
structure Env where
  sqrt : ℚ → ℚ
  findObjects : Bool → List GameObject → Rect → List Nat
  isAsteroid : GameObject → Bool
  getCollisionPoly : GameObject → Option (List Point)
  polygonSweptCircleIntersect : List Point → Point → Point → ℚ → Option (Point × ℚ)
  findLowestRootInInterval : ℚ → ℚ → ℚ → ℚ → Option ℚ
  collide : GameObject → GameObject → Bool
  isCollideableType : Nat → Bool
  SpeedZoneTypeNumber : Nat
  isSpeedZone : GameObject → Bool
  speedZoneCollided : GameObject → GameObject → StateIndex → MoveState
  InterpMaxVelocity : ℚ
  InterpAcceleration : ℚ

/-! ## Constants of `moveObject.cpp` -/

/-- The constant `MoveObjectCollisionElasticity = 1.7f`. -/
def MoveObjectCollisionElasticity : ℚ := 17 / 10

/-- The constant `moveTimeEpsilon = 0.000001f`. -/
def moveTimeEpsilon : ℚ := 1 / 1000000

/-- The constant `velocityEpsilon = 0.00001f`. -/
def velocityEpsilon : ℚ := 1 / 100000

/-- The local constant `displaceEpsilon = 0.002f` of `move`. -/
def displaceEpsilon : ℚ := 2 / 1000

/-- The local constant `e = 0.9f` of `computeCollisionResponseMoveObject`. -/
def collisionElasticity : ℚ := 9 / 10

/-- The cap on `tryCount` in the loop of `move`. -/
def tryCountCap : Nat := 8

/-! ## Collision response -/

/-- The method `MoveObject::computeCollisionResponseBarrier`: reflect the velocity of `this`
along the normal through the collision point. -/
def computeCollisionResponseBarrier (env : Env) (w : World) (this : Nat)
    (stateIndex : StateIndex) (collisionPoint : Point) : World :=
  let normal := (((w.obj this).state stateIndex).pos.sub collisionPoint).normalize env.sqrt
  w.modify this (fun o => o.setVel stateIndex
    ((o.state stateIndex).vel.sub
      ((normal.scale MoveObjectCollisionElasticity).scale
        (normal.dot ((w.obj this).state stateIndex).vel))))

/-- The method `MoveObject::computeCollisionResponseMoveObject`: the 1-D collision of `this`
with `moveObjectThatWasHit` along the line of centres. -/
def computeCollisionResponseMoveObject (env : Env) (w : World) (this : Nat)
    (stateIndex : StateIndex) (moveObjectThatWasHit : Nat) : World :=
  let collisionVector :=
    (((w.obj moveObjectThatWasHit).state stateIndex).pos.sub
      ((w.obj this).state stateIndex).pos).normalize env.sqrt
  let v1i := ((w.obj this).state stateIndex).vel.dot collisionVector
  let v2i := ((w.obj moveObjectThatWasHit).state stateIndex).vel.dot collisionVector
  let e := collisionElasticity
  let v2f := (e * (v1i - v2i) + v1i + v2i) / 2
  let v1f := v1i + v2i - v2f
  let w1 := w.modify this (fun o => o.setVel stateIndex
    ((o.state stateIndex).vel.add (collisionVector.scale (v1f - v1i))))
  w1.modify moveObjectThatWasHit (fun o => o.setVel stateIndex
    ((o.state stateIndex).vel.add (collisionVector.scale (v2f - v2i))))

/-- The method `MoveObject::computeMinSeperationTime`; `-1` when no root is found. -/
def computeMinSeperationTime (env : Env) (w : World) (this : Nat) (stateIndex : StateIndex)
    (contactShip : Nat) (intendedPos : Point) : ℚ :=
  let myRadius := (w.obj this).mRadius
  let contactShipRadius := (w.obj contactShip).mRadius
  let contactShipPos := ((w.obj contactShip).state stateIndex).pos
  let v := ((w.obj contactShip).state stateIndex).vel
  let posDelta := contactShipPos.sub intendedPos
  let R := myRadius + contactShipRadius
  let a := v.dot v
  let b := 2 * v.dot posDelta
  let c := posDelta.dot posDelta - R * R
  match env.findLowestRootInInterval a b c 100000 with
  | some t => t
  | none => -1

/-! ## Collision detection -/

/-- The locals of `findFirstCollision` that survive an iteration of its scan: the two
reference parameters `collisionTime` and `collisionPoint`, the remaining `delta`, and the
result `collisionObject`. -/
structure Sweep where
  collisionTime : ℚ
  collisionPoint : Point
  delta : Point
  collisionObject : Option Nat
deriving DecidableEq, Inhabited

/-- The scan `for(S32 i = 0; i < fillVector.size(); i++)` of `findFirstCollision` over the
candidates returned by the spatial query. A candidate that is not an object of the world is
skipped. -/
def findFirstCollisionScan (env : Env) (objs : List GameObject) (me : GameObject)
    (stateIndex : StateIndex) : List Nat → Sweep → Sweep
  | [], s => s
  | i :: rest, s =>
    match objs[i]? with
    | none => findFirstCollisionScan env objs me stateIndex rest s
    | some foundObject =>
      if !foundObject.collisionEnabled then
        findFirstCollisionScan env objs me stateIndex rest s
      else
        match env.getCollisionPoly foundObject with
        | some poly =>
          match env.polygonSweptCircleIntersect poly (me.state stateIndex).pos s.delta
              me.mRadius with
          | some (cp, collisionFraction) =>
            if cp ≠ (me.state stateIndex).pos then
              if !(env.collide me foundObject && env.collide foundObject me) then
                findFirstCollisionScan env objs me stateIndex rest s
              else
                let s1 : Sweep :=
                  { collisionPoint := cp
                    delta := s.delta.scale collisionFraction
                    collisionTime := s.collisionTime * collisionFraction
                    collisionObject := some i }
                if s1.collisionTime = 0 then s1
                else findFirstCollisionScan env objs me stateIndex rest s1
            else findFirstCollisionScan env objs me stateIndex rest s
          | none => findFirstCollisionScan env objs me stateIndex rest s
        | none =>
          if foundObject.isMoveObject then
            let myRadius := me.mRadius
            let otherRadius := foundObject.mRadius
            let myPos := (me.state stateIndex).pos
            let shipPos := (foundObject.state stateIndex).pos
            let v := (me.state stateIndex).vel
            let p := myPos.sub shipPos
            if v.dot p < 0 then
              let R := myRadius + otherRadius
              if p.len env.sqrt ≤ R then
                if !(env.collide me foundObject && env.collide foundObject me) then
                  findFirstCollisionScan env objs me stateIndex rest s
                else
                  findFirstCollisionScan env objs me stateIndex rest
                    { s with collisionTime := 0, collisionObject := some i, delta := Point.zero }
              else
                let a := v.dot v
                let b := 2 * p.dot v
                let c := p.dot p - R * R
                match env.findLowestRootInInterval a b c s.collisionTime with
                | some t =>
                  if !(env.collide me foundObject && env.collide foundObject me) then
                    findFirstCollisionScan env objs me stateIndex rest s
                  else
                    findFirstCollisionScan env objs me stateIndex rest
                      { s with collisionTime := t, collisionObject := some i,
                               delta := (me.state stateIndex).vel.scale t }
                | none => findFirstCollisionScan env objs me stateIndex rest s
            else findFirstCollisionScan env objs me stateIndex rest s
          else findFirstCollisionScan env objs me stateIndex rest s

/-- The method `MoveObject::findFirstCollision`. The result holds the object hit (if any) and
the final values of the reference parameters `collisionTime` and `collisionPoint`. -/
def findFirstCollision (env : Env) (w : World) (this : Nat) (stateIndex : StateIndex)
    (collisionTime : ℚ) (collisionPoint : Point) : Sweep :=
  let me := w.obj this
  let delta := (me.state stateIndex).vel.scale collisionTime
  let queryRect := (Rect.ofPoints (me.state stateIndex).pos
    ((me.state stateIndex).pos.add delta)).expand ⟨me.mRadius, me.mRadius⟩
  let fillVector := env.findObjects (env.isAsteroid me) w.objs queryRect
  findFirstCollisionScan env w.objs me stateIndex fillVector
    { collisionTime := collisionTime, collisionPoint := collisionPoint, delta := delta,
      collisionObject := none }

/-! ## The move loop -/

/-- The locals of `move` that survive an iteration of its loop, with the world. -/
structure LoopState where
  world : World
  moveTime : ℚ
  tryCount : Nat
  disabledList : List Nat
  displacerList : List Nat
deriving DecidableEq, Inhabited

/-- The statement `mMoveState[stateIndex].pos += mMoveState[stateIndex].vel * t` of `move`. -/
def advance (w : World) (this : Nat) (stateIndex : StateIndex) (t : ℚ) : World :=
  w.modify this (fun o => o.setPos stateIndex
    ((o.state stateIndex).pos.add ((o.state stateIndex).vel.scale t)))

/-- The block `if(objectHit->isMoveObject())` of the loop of `move`, entered after the advance to
the point of collision: cycle guard, collision response when the two objects are closing, and
otherwise the recursive push of the object hit, which is recorded in the log of pushes of the
world together with `mHitLimit--`. `st` holds the locals at the top of the iteration (after
`tryCount++`) and `w` the world after the advance. The result is as for `moveBody`. -/
def moveHitMoveObject (env : Env) (recMove : ℚ → Nat → List Nat → World → Option World)
    (this : Nat) (stateIndex : StateIndex) (isBeingDisplaced : Bool)
    (st : LoopState) (w : World) (objectHit : Nat) (collisionTime : ℚ) :
    Option (Bool × LoopState) :=
  let velDelta := ((w.obj objectHit).state stateIndex).vel.sub
    ((w.obj this).state stateIndex).vel
  let posDelta := ((w.obj objectHit).state stateIndex).pos.sub
    ((w.obj this).state stateIndex).pos
  if isBeingDisplaced && decide (objectHit ∈ st.displacerList) then
    some (false, { st with world := w })
  else if posDelta.dot velDelta < 0 then
    let w := computeCollisionResponseMoveObject env w this stateIndex objectHit
    if isBeingDisplaced then
      some (false, { st with world := w })
    else
      some (true, { st with world := w, moveTime := st.moveTime - collisionTime })
  else
    let intendedPos := ((w.obj this).state stateIndex).pos.add
      (((w.obj this).state stateIndex).vel.scale st.moveTime)
    let t := computeMinSeperationTime env w this stateIndex objectHit intendedPos
    if t ≤ 0 then
      some (false, { st with world := w })
    else
      let displacerList := st.displacerList ++ [this]
      if (w.obj this).mHitLimit > 0 then
        match recMove (t + displaceEpsilon) objectHit displacerList w with
        | none => none
        | some w =>
          some (true,
            { st with
              world :=
                { w.modify this (fun o => { o with mHitLimit := o.mHitLimit - 1 }) with
                  displacementPushes := w.displacementPushes ++ [this] }
              displacerList := displacerList
              moveTime := st.moveTime - collisionTime })
      else
        some (true, { st with world := w, displacerList := displacerList,
                              moveTime := st.moveTime - collisionTime })

/-- The block `else if(objectHit->getObjectTypeNumber() == SpeedZoneTypeNumber)` of the loop of
`move`: run the hook of the speed zone, disable its collision, remember it, and take back the
count of this iteration. -/
def moveHitSpeedZone (env : Env) (this : Nat) (stateIndex : StateIndex)
    (st : LoopState) (w : World) (objectHit : Nat) (collisionTime : ℚ) : LoopState :=
  let w :=
    if env.isSpeedZone (w.obj objectHit) then
      w.modify this (fun o => o.setState stateIndex
        (env.speedZoneCollided (w.obj objectHit) o stateIndex))
    else w
  { st with
    world := w.modify objectHit GameObject.disableCollision
    disabledList := st.disabledList ++ [objectHit]
    tryCount := st.tryCount - 1
    moveTime := st.moveTime - collisionTime }

/-- One iteration of the loop of `move`. The result is `none` when a recursive push did not
return within its fuel; otherwise the flag tells whether the loop goes on (`true`) or was left
with `break` (`false`). `recMove moveTime that displacerList w` is the recursive call
`that->move(moveTime, stateIndex, true, displacerList)`. -/
def moveBody (env : Env) (recMove : ℚ → Nat → List Nat → World → Option World)
    (this : Nat) (stateIndex : StateIndex) (isBeingDisplaced : Bool)
    (st : LoopState) : Option (Bool × LoopState) :=
  let st := { st with tryCount := st.tryCount + 1 }
  if !isBeingDisplaced &&
      decide (((st.world.obj this).state stateIndex).vel.len env.sqrt < velocityEpsilon) then
    some (false, st)
  else
    let found := findFirstCollision env st.world this stateIndex st.moveTime Point.zero
    let w : World :=
      { st.world with findFirstCollisionCalls := st.world.findFirstCollisionCalls + 1 }
    match found.collisionObject with
    | none => some (false, { st with world := advance w this stateIndex st.moveTime })
    | some objectHit =>
      let collisionTime := found.collisionTime
      let w := advance w this stateIndex collisionTime
      if (w.obj objectHit).isMoveObject then
        moveHitMoveObject env recMove this stateIndex isBeingDisplaced st w objectHit
          collisionTime
      else if env.isCollideableType (w.obj objectHit).objectTypeNumber then
        let w := computeCollisionResponseBarrier env w this stateIndex found.collisionPoint
        some (true, { st with world := w, moveTime := st.moveTime - collisionTime })
      else if (w.obj objectHit).objectTypeNumber = env.SpeedZoneTypeNumber then
        some (true, moveHitSpeedZone env this stateIndex st w objectHit collisionTime)
      else
        some (true, { st with world := w, moveTime := st.moveTime - collisionTime })

/-- The loop `while(moveTime > moveTimeEpsilon && tryCount < 8)` of `move`; every iteration
uses one unit of `fuel`, and the result is `none` when the fuel does not suffice. -/
def moveLoop (env : Env) (recMove : ℚ → Nat → List Nat → World → Option World)
    (this : Nat) (stateIndex : StateIndex) (isBeingDisplaced : Bool) :
    Nat → LoopState → Option LoopState
  | fuel, st =>
    if st.moveTime > moveTimeEpsilon ∧ st.tryCount < tryCountCap then
      match fuel with
      | 0 => none
      | fuel + 1 =>
        match moveBody env recMove this stateIndex isBeingDisplaced st with
        | none => none
        | some (true, st1) => moveLoop env recMove this stateIndex isBeingDisplaced fuel st1
        | some (false, st1) => some st1
    else some st

/-- The loop `for(S32 i = 0; i < disabledList.size(); i++)` at the end of `move`: enable the
collision of every object of the list. -/
def enableDisabled : List Nat → World → World
  | [], w => w
  | i :: rest, w => enableDisabled rest (w.modify i GameObject.enableCollision)

/-- The code of `move` after its loop: enable what was disabled, and zero the velocity when
`tryCount == 8`. -/
def moveFinish (this : Nat) (stateIndex : StateIndex) (st : LoopState) : World :=
  let w := enableDisabled st.disabledList st.world
  if st.tryCount = tryCountCap then
    w.modify this (fun o => o.setVel stateIndex Point.zero)
  else w

/-- The initial locals of a call of `move`. -/
def moveStart (moveTime : ℚ) (displacerList : List Nat) (w : World) : LoopState :=
  { world := w, moveTime := moveTime, tryCount := 0, disabledList := [],
    displacerList := displacerList }

/-- The method `MoveObject::move` on the object `this`. `depth` bounds the nesting of
recursive pushes (this call included) and `iters` the iterations of the loop of each call;
the result is `none` when one of them does not suffice. -/
def move (env : Env) (iters : Nat) : Nat → ℚ → Nat → StateIndex → Bool → List Nat →
    World → Option World
  | 0, _, _, _, _, _, _ => none
  | depth + 1, moveTime, this, stateIndex, isBeingDisplaced, displacerList, w =>
    match moveLoop env
        (fun t that l w1 => move env iters depth t that stateIndex true l w1)
        this stateIndex isBeingDisplaced iters (moveStart moveTime displacerList w) with
    | none => none
    | some st => some (moveFinish this stateIndex st)

/-- The label `interpDone` of `updateInterpolation`: clear the flag and copy the actual state
to the render state. -/
def interpDone (o : GameObject) : GameObject :=
  { o with mInterpolating := false, render := o.actual }

/-- The local `deltaP` of `updateInterpolation` before it is normalised. -/
def interpDeltaP (o : GameObject) : Point := o.actual.pos.sub o.render.pos

/-- The local `distance` of `updateInterpolation`. -/
def interpDistance (env : Env) (o : GameObject) : ℚ := (interpDeltaP o).len env.sqrt

/-- The local `deltaP` of `updateInterpolation` after `deltaP.normalize()`. -/
def interpDirection (env : Env) (o : GameObject) : Point := (interpDeltaP o).normalize env.sqrt

/-- The local `time = deltaT * 0.001f` of `updateInterpolation`. -/
def interpTime (o : GameObject) : ℚ := (o.mCurrentMoveTime : ℚ) * (1 / 1000)

/-- The local `rvel` of `updateInterpolation` after the two clamps
`if(rvel < avel) rvel = avel; if(rvel < 0) rvel = 0;`. -/
def interpRvel (env : Env) (o : GameObject) : ℚ :=
  let rvel := (interpDirection env o).dot o.render.vel
  let avel := (interpDirection env o).dot o.actual.vel
  let rvel := if rvel < avel then avel else rvel
  if rvel < 0 then 0 else rvel

/-- The local `interpMaxVel` of `updateInterpolation` after
`if(interpMaxVel < currentActualVelocity) interpMaxVel = currentActualVelocity;`. -/
def interpMaxVel (env : Env) (o : GameObject) : ℚ :=
  let interpMaxVel := env.InterpMaxVelocity
  let currentActualVelocity := o.actual.vel.len env.sqrt
  if interpMaxVel < currentActualVelocity then currentActualVelocity else interpMaxVel

/-- The local `requestVel` of `updateInterpolation` after the clamp to `interpMaxVel`. The value
is that of the code for a positive elapsed time; with `time = 0` the code divides by zero (an
infinity in `F32`), which the rational arithmetic does not represent. -/
def interpRequestVel (env : Env) (o : GameObject) : ℚ :=
  let requestVel := interpDistance env o / interpTime o
  if requestVel > interpMaxVel env o then interpMaxVel env o else requestVel

/-- The local `a` of `updateInterpolation` after the clamp to `InterpAcceleration`. The value is
that of the code for a positive elapsed time; with `time = 0` the code divides by zero. -/
def interpAccel (env : Env) (o : GameObject) : ℚ :=
  let a := (interpRequestVel env o - interpRvel env o) / interpTime o
  if a > env.InterpAcceleration then env.InterpAcceleration else a

/-- The local `hit` of `updateInterpolation` at `if(hit) goto interpDone;`: it is still `true`
when neither of the two clamps applied. The value is that of the code for a positive elapsed
time; with `time = 0` the code divides by zero and its comparisons are not those made here. -/
def interpHit (env : Env) (o : GameObject) : Bool :=
  let hit := true
  let hit := if interpDistance env o / interpTime o > interpMaxVel env o then false else hit
  if (interpRequestVel env o - interpRvel env o) / interpTime o > env.InterpAcceleration
  then false else hit

/-- The first statement of `updateInterpolation`:
`mMoveState[RenderState].angle = mMoveState[ActualState].angle`. -/
def copyAngle (o : GameObject) : GameObject :=
  { o with render := { o.render with angle := o.actual.angle } }

/-- The method `MoveObject::updateInterpolation`; the locals it computes on the way are the
definitions above. -/
def updateInterpolation (env : Env) (o : GameObject) : GameObject :=
  let o := copyAngle o
  if o.mInterpolating then
    if interpDistance env o = 0 then interpDone o
    else if interpRvel env o * interpTime o > interpDistance env o then interpDone o
    else if interpHit env o then interpDone o
    else
      let rvel := interpRvel env o + interpAccel env o * interpTime o
      let vel := (interpDirection env o).scale rvel
      { o with render := { o.render with vel := vel,
                                         pos := o.render.pos.add (vel.scale (interpTime o)) } }
  else interpDone o

/-! ## Concrete environments and worlds for the examples -/

/-- Newton's iteration for the integer square root of `n`, from the estimate `x`. -/
def sqrtIter (n : Nat) : Nat → Nat → Nat
  | 0, x => x
  | fuel + 1, x =>
    let y := (x + n / x) / 2
    if y < x then sqrtIter n fuel y else x

/-- The integer square root (rounded down) of a number below `2 ^ 64`. -/
def natSqrt (n : Nat) : Nat := if n = 0 then 0 else sqrtIter n 64 n

/-- A square root for the examples: the quotient of the integer square roots of numerator and
denominator, which is exact on the squares used below, and zero on negative numbers. -/
def exampleSqrt (q : ℚ) : ℚ := (natSqrt q.num.toNat : ℚ) / (natSqrt q.den : ℚ)

/-- An environment without obstacles: the spatial query finds nothing. -/
def emptyEnv : Env :=
  { sqrt := exampleSqrt
    findObjects := fun _ _ _ => []
    isAsteroid := fun _ => false
    getCollisionPoly := fun _ => none
    polygonSweptCircleIntersect := fun _ _ _ _ => none
    findLowestRootInInterval := fun _ _ _ _ => none
    collide := fun _ _ => true
    isCollideableType := fun _ => false
    SpeedZoneTypeNumber := 2
    isSpeedZone := fun _ => false
    speedZoneCollided := fun _ mover stateIndex => mover.state stateIndex
    InterpMaxVelocity := 900
    InterpAcceleration := 1800 }

/-- A `MoveObject` of radius 1 with the given position and velocity in all three slots. -/
def ball (pos vel : Point) : GameObject :=
  { isMoveObject := true
    objectTypeNumber := 0
    collisionEnabled := true
    actual := ⟨pos, vel, 0⟩
    render := ⟨pos, vel, 0⟩
    lastProcess := ⟨pos, vel, 0⟩
    mRadius := 1
    mMass := 1
    mItemId := 1
    mHitLimit := 16
    mInterpolating := false
    mCurrentMoveTime := 0 }

/-- Two balls on the x axis that approach each other, each with a sideways drift. -/
def twoBalls : World :=
  { objs := [ball ⟨0, 0⟩ ⟨10, 3⟩, ball ⟨1, 0⟩ ⟨-10, 1⟩], findFirstCollisionCalls := 0 }

/-- One ball at `(3, 4)` flying to the left. -/
def oneBall : World :=
  { objs := [ball ⟨3, 4⟩ ⟨-10, 0⟩], findFirstCollisionCalls := 0 }

/-- One ball at the origin drifting to the right at a millionth of a unit per second. -/
def slowBall : World :=
  { objs := [ball ⟨0, 0⟩ ⟨1 / 1000000, 0⟩], findFirstCollisionCalls := 0 }

/-- One ball at `(1, 0)` flying straight at the origin. -/
def headOnBall : World :=
  { objs := [ball ⟨1, 0⟩ ⟨-10, 0⟩], findFirstCollisionCalls := 0 }

/-- An interpolating entity: rendered at the origin, actually at `(3, 4)`, one millisecond of
elapsed time. -/
def easingBall : GameObject :=
  { ball ⟨0, 0⟩ ⟨0, 0⟩ with
    actual := ⟨⟨3, 4⟩, ⟨0, 0⟩, 1⟩
    mInterpolating := true
    mCurrentMoveTime := 1 }

/-- An interpolating entity whose render position has reached the actual position, with a
different velocity and heading. -/
def arrivedBall : GameObject :=
  { ball ⟨3, 4⟩ ⟨2, 0⟩ with
    actual := ⟨⟨3, 4⟩, ⟨0, 5⟩, 1⟩
    mInterpolating := true
    mCurrentMoveTime := 30 }

/-! ## Quantities used to state the frame and termination properties -/

/-- What `move` never changes of an object, except for switching its collision off and on
again: whether it is a `MoveObject`, its type number, and its collision flag. -/
structure Kind where
  isMoveObject : Bool
  objectTypeNumber : Nat
  collisionEnabled : Bool
deriving DecidableEq, Inhabited

/-- The kind with the collision flag replaced. -/
def Kind.withCollision (b : Bool) (k : Kind) : Kind := { k with collisionEnabled := b }

/-- The kind of a game object. -/
def GameObject.kind (o : GameObject) : Kind :=
  { isMoveObject := o.isMoveObject, objectTypeNumber := o.objectTypeNumber,
    collisionEnabled := o.collisionEnabled }

/-- The kinds of all objects of the world, in order. -/
def kinds (w : World) : List Kind := w.objs.map GameObject.kind

/-- An object that the loop of `move` treats as a speed zone when it is hit: collision
enabled, not a `MoveObject`, not of a collideable type, of type `SpeedZoneTypeNumber`. -/
def isEnabledZone (env : Env) (k : Kind) : Bool :=
  k.collisionEnabled && !k.isMoveObject && !env.isCollideableType k.objectTypeNumber &&
    decide (k.objectTypeNumber = env.SpeedZoneTypeNumber)

/-- The number of speed-zone obstacles of the world whose collision is enabled. -/
def zoneCount (env : Env) (w : World) : Nat := (kinds w).countP (isEnabledZone env)

/-- The number of object indices below `n` that do not occur in the displacer list. -/
def freeCount (n : Nat) (l : List Nat) : Nat :=
  ((List.range n).filter (fun i => decide (i ∉ l))).length

/-- A bound on the nesting of pushes below a displaced call on `that` with displacer list `l`,
in a world of `n` objects. -/
def pushMeasure (n : Nat) (that : Nat) (l : List Nat) : Nat :=
  2 * freeCount n l + (if that ∈ l then 2 else 1)

/-- The invariant of the loop of `move`, with `k0` the kinds of the objects on entry: the kinds
are as on entry, except that the objects of the disabled list have their collision switched
off; and these had it switched on on entry. -/
def LoopInv (k0 : List Kind) (st : LoopState) : Prop :=
  (∀ j, (kinds st.world)[j]? =
    if j ∈ st.disabledList then (k0[j]?).map (Kind.withCollision false) else k0[j]?) ∧
  (∀ j ∈ st.disabledList, ∃ k, k0[j]? = some k ∧ k.collisionEnabled = true)

/-- A solver for `a t^2 + b t + c = 0` for the examples: the smaller root that lies in
`[0, upper]`, when there is one. -/
def exampleLowestRoot (a b c upper : ℚ) : Option ℚ :=
  let determinant := b * b - 4 * a * c
  if determinant < 0 ∨ a = 0 then none
  else
    let x1 := (-b - exampleSqrt determinant) / (2 * a)
    let x2 := (-b + exampleSqrt determinant) / (2 * a)
    if 0 ≤ x1 ∧ x1 ≤ upper then some x1
    else if 0 ≤ x2 ∧ x2 ≤ upper then some x2
    else none

/-- An environment with obstacles: the spatial query returns every object; every object that
is not a `MoveObject` has a polygon, and the sweep against a polygon always reports a contact
one unit to the right of the mover after half of the remaining path; type 1 is collideable
(a barrier) and type 2 is the speed zone, whose hook sets the velocity to `(5, 0)`. -/
def exampleEnv : Env :=
  { emptyEnv with
    findObjects := fun _ objs _ => List.range objs.length
    getCollisionPoly := fun o => if o.isMoveObject then none else some []
    polygonSweptCircleIntersect := fun _ pos _ _ => some (pos.add ⟨1, 0⟩, 1 / 2)
    findLowestRootInInterval := exampleLowestRoot
    isCollideableType := fun t => decide (t = 1)
    isSpeedZone := fun _ => true
    speedZoneCollided := fun _ mover stateIndex => { mover.state stateIndex with vel := ⟨5, 0⟩ } }

/-- An obstacle of the given type number (not a `MoveObject`). -/
def obstacle (objectTypeNumber : Nat) : GameObject :=
  { ball ⟨0, 0⟩ ⟨0, 0⟩ with isMoveObject := false, objectTypeNumber := objectTypeNumber }

/-- A ball at the origin flying to the right, and an obstacle of type 3, which is neither a
barrier nor a speed zone. -/
def ballAndOther : World :=
  { objs := [ball ⟨0, 0⟩ ⟨1, 0⟩, obstacle 3], findFirstCollisionCalls := 0 }

/-- A ball at the origin flying to the right, and a speed zone. -/
def ballAndZone : World :=
  { objs := [ball ⟨0, 0⟩ ⟨1, 0⟩, obstacle 2], findFirstCollisionCalls := 0 }

/-- A chain of three balls of radius 1 on the x axis, each overlapping the next, all flying
to the right with the same velocity. -/
def chain : World :=
  { objs := [ball ⟨0, 0⟩ ⟨1, 0⟩, ball ⟨3 / 2, 0⟩ ⟨1, 0⟩, ball ⟨3, 0⟩ ⟨1, 0⟩],
    findFirstCollisionCalls := 0 }

/-- A ball at rest at the origin, and a speed zone. -/
def restingBallAndZone : World :=
  { objs := [ball ⟨0, 0⟩ ⟨0, 0⟩, obstacle 2], findFirstCollisionCalls := 0 }

/-- An interpolating entity rendered at the origin and actually at `(3, 4)`, with one second of
elapsed time: the gap can be closed within the step without any clamp. -/
def convergingBall : GameObject :=
  { easingBall with mCurrentMoveTime := 1000 }

/-! ## Items: identifiers and the network update -/

/-- The constant `U16_MAX`. -/
def U16_MAX : Nat := 65535

/-- Modelled from the spec: `setActualPos(pos)` (declared outside the analysed sources) writes
the position of the actual state. -/
def GameObject.setActualPos (o : GameObject) (pos : Point) : GameObject :=
  { o with actual := { o.actual with pos := pos } }

/-- Modelled from the spec: the fields of the network update that `Item` writes and reads, in
the order of the bit stream (`BitStream` is declared outside the analysed sources): a flag,
"the integer identifier ranged [0, 65535] and a compressed world position". -/
inductive StreamField where
  | flag (b : Bool)
  | rangedU32 (value : Nat)
  | compressedPoint (p : Point)
deriving DecidableEq, Inhabited

/-- Modelled from the spec: the encodings of the bit stream and of the connection, which are
declared outside the analysed sources. `rangedU32 value rangeStart rangeEnd` is the number that
`readRangedU32(rangeStart, rangeEnd)` returns for what
`writeRangedU32(value, rangeStart, rangeEnd)` wrote, and `compressedPoint p` is the position
that `readCompressedPoint` returns for what `writeCompressedPoint(p)` wrote. -/
structure Wire where
  rangedU32 : Nat → Nat → Nat → Nat
  compressedPoint : Point → Point

/-- Modelled from the spec: an integer "ranged [rangeStart, rangeEnd]" is read back within the
range, and a value of the range is read back unchanged. -/
def Wire.Ranged (wire : Wire) : Prop :=
  ∀ v lo hi : Nat, lo ≤ hi →
    (lo ≤ wire.rangedU32 v lo hi ∧ wire.rangedU32 v lo hi ≤ hi) ∧
    (lo ≤ v → v ≤ hi → wire.rangedU32 v lo hi = v)

/-- The method `Item::packUpdate` on the fields written so far; `initial` says whether
`updateMask & InitialMask` is set. The fields of `Parent::packUpdate` are left out. -/
def Item.packUpdate (wire : Wire) (o : GameObject) (initial : Bool)
    (stream : List StreamField) : List StreamField :=
  let stream := stream ++ [StreamField.flag initial]
  if initial then
    stream ++ [StreamField.rangedU32 (wire.rangedU32 o.mItemId 0 U16_MAX),
      StreamField.compressedPoint (wire.compressedPoint o.actual.pos)]
  else stream

/-- The method `Item::unpackUpdate` on the fields still to be read: the item after the update
and the fields left. A stream that does not start with the fields of `Item::packUpdate` is left
alone. -/
def Item.unpackUpdate (o : GameObject) (stream : List StreamField) :
    GameObject × List StreamField :=
  match stream with
  | StreamField.flag true :: StreamField.rangedU32 v :: StreamField.compressedPoint p :: rest =>
    (({ o with mItemId := v } : GameObject).setActualPos p, rest)
  | StreamField.flag false :: rest => (o, rest)
  | _ => (o, stream)

/-- A wire for the examples: a ranged integer is sent as its offset in the range, truncated to
the size of the range (16 bits for the range `[0, 65535]`), and positions are sent exactly. -/
def exampleWire : Wire :=
  { rangedU32 := fun v lo hi => lo + (v - lo) % (hi - lo + 1)
    compressedPoint := fun p => p }

/-- Modelled from the spec: what `FindLowestRootInInterval(a, b, c, upper, t)` (declared outside
the analysed sources) answers for one quadratic `a t^2 + b t + c = 0`: "the smallest positive
root within `[0, timeBudget]`", and no root when the quadratic has "no real root in range". -/
def LowestRootAt (f : ℚ → ℚ → ℚ → ℚ → Option ℚ) (a b c upper : ℚ) : Prop :=
  match f a b c upper with
  | some t =>
    (0 ≤ t ∧ t ≤ upper ∧ a * t * t + b * t + c = 0) ∧
      ∀ t1 : ℚ, 0 ≤ t1 → t1 ≤ upper → a * t1 * t1 + b * t1 + c = 0 → t ≤ t1
  | none => ∀ t1 : ℚ, 0 ≤ t1 → t1 ≤ upper → a * t1 * t1 + b * t1 + c ≠ 0

/-- Two balls of radius 1 on the x axis, five units apart, flying to the right with the same
velocity. -/
def convoy : World :=
  { objs := [ball ⟨0, 0⟩ ⟨1, 0⟩, ball ⟨5, 0⟩ ⟨1, 0⟩], findFirstCollisionCalls := 0 }

/-- Two overlapping balls on the x axis: the second flies as fast to the right as the first
and drifts sideways, so the two are not closing and the second never separates from the place
the first is heading for. -/
def drifters : World :=
  { objs := [ball ⟨0, 0⟩ ⟨10, 0⟩, ball ⟨3 / 2, 0⟩ ⟨10, 5⟩], findFirstCollisionCalls := 0 }

/-! ## The contact axis as the comment describes it, and iterations of the loop -/

/-- The entity-vs-entity response with the collision vector that the comment in the source
describes, `a line from the center of moveObjectThatWasHit to the center of this`: the unit
vector from the struck entity to the mover, the opposite of the one the code computes.
Everything else is as in `computeCollisionResponseMoveObject`. -/
def computeCollisionResponseMoveObjectReversed (env : Env) (w : World) (this : Nat)
    (stateIndex : StateIndex) (moveObjectThatWasHit : Nat) : World :=
  let collisionVector :=
    (((w.obj this).state stateIndex).pos.sub
      ((w.obj moveObjectThatWasHit).state stateIndex).pos).normalize env.sqrt
  let v1i := ((w.obj this).state stateIndex).vel.dot collisionVector
  let v2i := ((w.obj moveObjectThatWasHit).state stateIndex).vel.dot collisionVector
  let e := collisionElasticity
  let v2f := (e * (v1i - v2i) + v1i + v2i) / 2
  let v1f := v1i + v2i - v2f
  let w1 := w.modify this (fun o => o.setVel stateIndex
    ((o.state stateIndex).vel.add (collisionVector.scale (v1f - v1i))))
  w1.modify moveObjectThatWasHit (fun o => o.setVel stateIndex
    ((o.state stateIndex).vel.add (collisionVector.scale (v2f - v2i))))

/-- The locals of `move` after `n` iterations of its loop, each of which was entered and ended
without `break`; `none` when one of them was not entered, left the loop, or did not return. -/
def moveIterations (env : Env) (recMove : ℚ → Nat → List Nat → World → Option World)
    (this : Nat) (stateIndex : StateIndex) (isBeingDisplaced : Bool) :
    Nat → LoopState → Option LoopState
  | 0, st => some st
  | n + 1, st =>
    if st.moveTime > moveTimeEpsilon ∧ st.tryCount < tryCountCap then
      match moveBody env recMove this stateIndex isBeingDisplaced st with
      | some (true, st1) => moveIterations env recMove this stateIndex isBeingDisplaced n st1
      | _ => none
    else none

/-- An environment in which the sweep against a polygon reports a contact after half of the
remaining path as long as the path is longer than a hundredth along x, and nothing after
that. -/
def thresholdEnv : Env :=
  { exampleEnv with
    polygonSweptCircleIntersect := fun _ pos delta _ =>
      if delta.x > 1 / 100 then some (pos.add ⟨1, 0⟩, 1 / 2) else none }

/-! ## The hit limit as a budget of pushes -/

namespace World

theorem length_modify (w : World) (i : Nat) (f : GameObject → GameObject) :
    (w.modify i f).objs.length = w.objs.length := by
  simp [World.modify]

theorem obj_modify (w : World) (i j : Nat) (f : GameObject → GameObject) :
    (w.modify i f).obj j = if i = j ∧ j < w.objs.length then f (w.obj j) else w.obj j := by
  simp only [World.obj, World.modify, List.getD_eq_getElem?_getD, List.getElem?_modify]
  by_cases hj : j < w.objs.length
  · by_cases hij : i = j
    · simp [hij, hj, List.getElem?_eq_getElem]
    · simp [hij, hj, List.getElem?_eq_getElem]
  · have : w.objs[j]? = none := List.getElem?_eq_none (by omega)
    simp [hj, this]

theorem obj_modify_self (w : World) (i : Nat) (f : GameObject → GameObject)
    (h : i < w.objs.length) : (w.modify i f).obj i = f (w.obj i) := by
  simp [obj_modify, h]

theorem obj_modify_ne (w : World) (i j : Nat) (f : GameObject → GameObject)
    (h : i ≠ j) : (w.modify i f).obj j = w.obj j := by
  simp [obj_modify, h]

end World

namespace GameObject

@[simp] theorem state_setState (o : GameObject) (s : StateIndex) (m : MoveState) :
    (o.setState s m).state s = m := by
  cases s <;> rfl

@[simp] theorem state_setVel_vel (o : GameObject) (s : StateIndex) (v : Point) :
    ((o.setVel s v).state s).vel = v := by
  cases s <;> rfl

@[simp] theorem state_setVel_pos (o : GameObject) (s : StateIndex) (v : Point) :
    ((o.setVel s v).state s).pos = (o.state s).pos := by
  cases s <;> rfl

@[simp] theorem state_setPos_pos (o : GameObject) (s : StateIndex) (p : Point) :
    ((o.setPos s p).state s).pos = p := by
  cases s <;> rfl

@[simp] theorem state_setPos_vel (o : GameObject) (s : StateIndex) (p : Point) :
    ((o.setPos s p).state s).vel = (o.state s).vel := by
  cases s <;> rfl

end GameObject

namespace Point

theorem lenSquared_pos_of_ne {a b : Point} (h : a ≠ b) : 0 < (a.sub b).lenSquared := by
  have hne : a.x - b.x ≠ 0 ∨ a.y - b.y ≠ 0 := by
    by_contra hcon
    push_neg at hcon
    apply h
    cases a; cases b
    simp only [Point.mk.injEq]
    constructor <;> linarith [hcon.1, hcon.2]
  simp only [lenSquared, sub]
  rcases hne with h1 | h1
  · nlinarith [mul_self_pos.mpr h1, mul_self_nonneg (a.y - b.y)]
  · nlinarith [mul_self_pos.mpr h1, mul_self_nonneg (a.x - b.x)]

/-- A normalised vector has unit length when the square root is exact at its squared length. -/
theorem normalize_dot_self (sqrt : ℚ → ℚ) (d : Point) (hd : 0 < d.lenSquared)
    (hs : sqrt d.lenSquared * sqrt d.lenSquared = d.lenSquared) :
    (d.normalize sqrt).dot (d.normalize sqrt) = 1 := by
  have hl : sqrt d.lenSquared ≠ 0 := by
    intro h0
    rw [h0] at hs
    linarith
  simp only [normalize, len, dot, scale]
  have : d.x * d.x + d.y * d.y = sqrt d.lenSquared * sqrt d.lenSquared := by
    rw [hs]; rfl
  field_simp
  linarith

/-- A multiple of a vector is a multiple of its normalisation. -/
theorem scale_eq_normalize_scale (sqrt : ℚ → ℚ) (d : Point) (k : ℚ)
    (hl : sqrt d.lenSquared ≠ 0) :
    d.scale k = (d.normalize sqrt).scale (k * sqrt d.lenSquared) := by
  simp only [normalize, len, scale, Point.mk.injEq]
  constructor <;> (field_simp; ring)

/-- Reflecting a vector that is parallel to the unit normal multiplies it by `1 - E`. -/
theorem reflect_parallel (n v : Point) (E c : ℚ) (hn : n.dot n = 1) (hv : v = n.scale c) :
    v.sub (n.scale (E * n.dot v)) = v.scale (1 - E) := by
  subst hv
  have hn2 : n.x * n.x + n.y * n.y = 1 := hn
  simp only [sub, scale, dot, Point.mk.injEq]
  constructor
  · linear_combination (-(E * n.x * c)) * hn2
  · linear_combination (-(E * n.y * c)) * hn2

/-- A vector parallel to `n` has no component along a vector perpendicular to `n`. -/
theorem dot_parallel_of_perp (t n v : Point) (c : ℚ) (ht : t.dot n = 0) (hv : v = n.scale c) :
    t.dot v = 0 := by
  subst hv
  have ht2 : t.x * n.x + t.y * n.y = 0 := ht
  simp only [scale, dot]
  linear_combination c * ht2

end Point

/-! ## Collision response (C3, C4, C5) -/

/-- C3: for two entities at distinct positions, with `u` the unit vector along the line of
centres and `v1i`, `v2i` the projections of the two velocities onto `u`,
`computeCollisionResponseMoveObject` sets the mover's velocity to `v1 + u*(v1f - v1i)` and the
struck entity's velocity to `v2 + u*(v2f - v2i)`, with `e = 0.9`,
`v2f = (e*(v1i - v2i) + v1i + v2i)/2` and `v1f = v1i + v2i - v2f`; components perpendicular to
`u` are untouched, the new components along `u` are `v1f` and `v2f`, and for `v1i = v`,
`v2i = -v` these are `-e*v` and `e*v`. The square root is assumed exact at the squared
distance of the centres. -/
theorem computeCollisionResponseMoveObject_formula (env : Env) (w : World) (this hit : Nat)
    (s : StateIndex) (hthis : this < w.objs.length) (hhit : hit < w.objs.length)
    (hpos : ((w.obj hit).state s).pos ≠ ((w.obj this).state s).pos)
    (hsqrt : env.sqrt (((w.obj hit).state s).pos.sub ((w.obj this).state s).pos).lenSquared *
        env.sqrt (((w.obj hit).state s).pos.sub ((w.obj this).state s).pos).lenSquared =
      (((w.obj hit).state s).pos.sub ((w.obj this).state s).pos).lenSquared) :
    let u := (((w.obj hit).state s).pos.sub ((w.obj this).state s).pos).normalize env.sqrt
    let v1 := ((w.obj this).state s).vel
    let v2 := ((w.obj hit).state s).vel
    let v1i := v1.dot u
    let v2i := v2.dot u
    let v2f := ((9 / 10 : ℚ) * (v1i - v2i) + v1i + v2i) / 2
    let v1f := v1i + v2i - v2f
    let w1 := computeCollisionResponseMoveObject env w this s hit
    u.dot u = 1 ∧
    ((w1.obj this).state s).vel = v1.add (u.scale (v1f - v1i)) ∧
    ((w1.obj hit).state s).vel = v2.add (u.scale (v2f - v2i)) ∧
    (∀ t : Point, t.dot u = 0 →
      ((w1.obj this).state s).vel.dot t = v1.dot t ∧
      ((w1.obj hit).state s).vel.dot t = v2.dot t) ∧
    ((w1.obj this).state s).vel.dot u = v1f ∧
    ((w1.obj hit).state s).vel.dot u = v2f ∧
    (∀ v : ℚ, v1i = v → v2i = -v → v1f = -(9 / 10) * v ∧ v2f = (9 / 10) * v) := by
  intro u v1 v2 v1i v2i v2f v1f w1
  have hne : this ≠ hit := by
    intro h
    apply hpos
    rw [h]
  have hne2 : hit ≠ this := fun h => hne h.symm
  have hu : u.dot u = 1 :=
    Point.normalize_dot_self env.sqrt _ (Point.lenSquared_pos_of_ne hpos) hsqrt
  have e1 : ((w1.obj this).state s).vel = v1.add (u.scale (v1f - v1i)) := by
    simp only [w1, computeCollisionResponseMoveObject, World.obj_modify, World.length_modify,
      hne, hne2, hthis, false_and, if_false, true_and, if_true, and_self,
      GameObject.state_setVel_vel, collisionElasticity]
  have e2 : ((w1.obj hit).state s).vel = v2.add (u.scale (v2f - v2i)) := by
    simp only [w1, computeCollisionResponseMoveObject, World.obj_modify, World.length_modify,
      hne, hne2, hhit, false_and, if_false, true_and, if_true, and_self,
      GameObject.state_setVel_vel, collisionElasticity]
  have hu2 : u.x * u.x + u.y * u.y = 1 := hu
  refine ⟨hu, e1, e2, ?_, ?_, ?_, ?_⟩
  · intro t ht
    have ht2 : t.x * u.x + t.y * u.y = 0 := ht
    rw [e1, e2]
    simp only [Point.dot, Point.add, Point.scale]
    constructor
    · linear_combination (v1f - v1i) * ht2
    · linear_combination (v2f - v2i) * ht2
  · rw [e1]
    simp only [Point.dot, Point.add, Point.scale]
    have : v1i = v1.x * u.x + v1.y * u.y := rfl
    linear_combination (v1f - v1i) * hu2 - this
  · rw [e2]
    simp only [Point.dot, Point.add, Point.scale]
    have : v2i = v2.x * u.x + v2.y * u.y := rfl
    linear_combination (v2f - v2i) * hu2 - this
  · intro v h1 h2
    simp only [v1f, v2f, h1, h2]
    constructor <;> ring

/-- The velocity after the barrier response, its component along the unit normal and its
components perpendicular to it. -/
theorem computeCollisionResponseBarrier_spec (env : Env) (w : World) (this : Nat)
    (s : StateIndex) (collisionPoint : Point) (hthis : this < w.objs.length)
    (hpos : ((w.obj this).state s).pos ≠ collisionPoint)
    (hsqrt : env.sqrt (((w.obj this).state s).pos.sub collisionPoint).lenSquared *
        env.sqrt (((w.obj this).state s).pos.sub collisionPoint).lenSquared =
      (((w.obj this).state s).pos.sub collisionPoint).lenSquared) :
    let n := (((w.obj this).state s).pos.sub collisionPoint).normalize env.sqrt
    let v := ((w.obj this).state s).vel
    let w1 := computeCollisionResponseBarrier env w this s collisionPoint
    MoveObjectCollisionElasticity = 17 / 10 ∧
    n.dot n = 1 ∧
    ((w1.obj this).state s).vel = v.sub (n.scale (MoveObjectCollisionElasticity * n.dot v)) ∧
    n.dot ((w1.obj this).state s).vel = (1 - MoveObjectCollisionElasticity) * n.dot v ∧
    (∀ t : Point, t.dot n = 0 → t.dot ((w1.obj this).state s).vel = t.dot v) := by
  intro n v w1
  have hn : n.dot n = 1 :=
    Point.normalize_dot_self env.sqrt _ (Point.lenSquared_pos_of_ne hpos) hsqrt
  have hn2 : n.x * n.x + n.y * n.y = 1 := hn
  have e1 : ((w1.obj this).state s).vel =
      v.sub (n.scale (MoveObjectCollisionElasticity * n.dot v)) := by
    simp only [w1, computeCollisionResponseBarrier, World.obj_modify, hthis, and_self, if_true,
      GameObject.state_setVel_vel]
    simp only [Point.sub, Point.scale, Point.mk.injEq, n, v]
    constructor <;> ring
  refine ⟨rfl, hn, e1, ?_, ?_⟩
  · rw [e1]
    simp only [Point.dot, Point.sub, Point.scale]
    linear_combination (-(MoveObjectCollisionElasticity * (n.x * v.x + n.y * v.y))) * hn2
  · intro t ht
    have ht2 : t.x * n.x + t.y * n.y = 0 := ht
    rw [e1]
    simp only [Point.dot, Point.sub, Point.scale]
    linear_combination (-(MoveObjectCollisionElasticity * (n.x * v.x + n.y * v.y))) * ht2

/-- C4: for a contact point distinct from the entity's position, with `n` the unit normal
(position minus contact point, normalised), `computeCollisionResponseBarrier` yields
`v - E*(n.v)*n` with `E = MoveObjectCollisionElasticity = 1.7`: the component along `n` becomes
`(1 - E)` times its previous value and every component perpendicular to `n` is unchanged.
The square root is assumed exact at the squared distance from the contact point. -/
theorem computeCollisionResponseBarrier_formula (env : Env) (w : World) (this : Nat)
    (s : StateIndex) (collisionPoint : Point) (hthis : this < w.objs.length)
    (hpos : ((w.obj this).state s).pos ≠ collisionPoint)
    (hsqrt : env.sqrt (((w.obj this).state s).pos.sub collisionPoint).lenSquared *
        env.sqrt (((w.obj this).state s).pos.sub collisionPoint).lenSquared =
      (((w.obj this).state s).pos.sub collisionPoint).lenSquared) :
    let n := (((w.obj this).state s).pos.sub collisionPoint).normalize env.sqrt
    let v := ((w.obj this).state s).vel
    let w1 := computeCollisionResponseBarrier env w this s collisionPoint
    MoveObjectCollisionElasticity = 17 / 10 ∧
    n.dot n = 1 ∧
    ((w1.obj this).state s).vel = v.sub (n.scale (MoveObjectCollisionElasticity * n.dot v)) ∧
    n.dot ((w1.obj this).state s).vel = (1 - MoveObjectCollisionElasticity) * n.dot v ∧
    (∀ t : Point, t.dot n = 0 → t.dot ((w1.obj this).state s).vel = t.dot v) :=
  computeCollisionResponseBarrier_spec env w this s collisionPoint hthis hpos hsqrt

/-- Witness of C3: two balls at `(0,0)` and `(1,0)` with velocities `(10,3)` and `(-10,1)`
leave the response with velocities `(-9,3)` and `(9,1)`. -/
theorem computeCollisionResponseMoveObject_formula_witness :
    (((computeCollisionResponseMoveObject emptyEnv twoBalls 0 StateIndex.ActualState 1).obj 0).state
        StateIndex.ActualState).vel = ⟨-9, 3⟩ ∧
    (((computeCollisionResponseMoveObject emptyEnv twoBalls 0 StateIndex.ActualState 1).obj 1).state
        StateIndex.ActualState).vel = ⟨9, 1⟩ :=
  have h := computeCollisionResponseMoveObject_formula emptyEnv twoBalls 0 1
    StateIndex.ActualState (by decide) (by decide) (by decide!) (by decide!)
  ⟨h.2.1.trans (by decide!), h.2.2.1.trans (by decide!)⟩

/-- Witness of C4: a ball at `(3,4)` with velocity `(-10,0)` that touches a barrier at the
origin leaves the response with velocity `(-97/25, 204/25)`. -/
theorem computeCollisionResponseBarrier_formula_witness :
    (((computeCollisionResponseBarrier emptyEnv oneBall 0 StateIndex.ActualState ⟨0, 0⟩).obj 0).state
        StateIndex.ActualState).vel = ⟨-97 / 25, 204 / 25⟩ :=
  (computeCollisionResponseBarrier_formula emptyEnv oneBall 0 StateIndex.ActualState ⟨0, 0⟩
    (by decide) (by decide!) (by decide!)).2.2.1.trans (by decide!)

/-- C5 (as stated) fails: a ball at `(1,0)` hits a barrier at the origin head-on with velocity
`(-10,0)`, of magnitude 10; the response leaves velocity `(7,0)`, of magnitude 7, which is not
`MoveObjectCollisionElasticity * 10 = 17`. -/
theorem computeCollisionResponseBarrier_headOn_counterexample :
    ((headOnBall.obj 0).state StateIndex.ActualState).vel =
      (((headOnBall.obj 0).state StateIndex.ActualState).pos.sub ⟨0, 0⟩).scale (-10) ∧
    (((computeCollisionResponseBarrier emptyEnv headOnBall 0 StateIndex.ActualState ⟨0, 0⟩).obj
        0).state StateIndex.ActualState).vel = ⟨7, 0⟩ ∧
    ¬ ((((computeCollisionResponseBarrier emptyEnv headOnBall 0 StateIndex.ActualState
          ⟨0, 0⟩).obj 0).state StateIndex.ActualState).vel.len emptyEnv.sqrt =
        MoveObjectCollisionElasticity *
          ((headOnBall.obj 0).state StateIndex.ActualState).vel.len emptyEnv.sqrt) ∧
    ¬ ((((computeCollisionResponseBarrier emptyEnv headOnBall 0 StateIndex.ActualState
          ⟨0, 0⟩).obj 0).state StateIndex.ActualState).vel.lenSquared =
        MoveObjectCollisionElasticity * MoveObjectCollisionElasticity *
          ((headOnBall.obj 0).state StateIndex.ActualState).vel.lenSquared) := by
  refine ⟨by decide!, by decide!, by decide!, by decide!⟩

/-- C5 (amended): at normal incidence (velocity parallel to the line from the contact point to
the entity's position) `computeCollisionResponseBarrier` multiplies the velocity by
`1 - MoveObjectCollisionElasticity = -0.7`: the velocity is reversed, its squared magnitude is
scaled by `(MoveObjectCollisionElasticity - 1)^2 = 0.49`, and its (zero) tangential component
is unchanged. The square root is assumed exact at the squared distance from the contact
point. -/
theorem computeCollisionResponseBarrier_headOn (env : Env) (w : World) (this : Nat)
    (s : StateIndex) (collisionPoint : Point) (k : ℚ) (hthis : this < w.objs.length)
    (hpos : ((w.obj this).state s).pos ≠ collisionPoint)
    (hsqrt : env.sqrt (((w.obj this).state s).pos.sub collisionPoint).lenSquared *
        env.sqrt (((w.obj this).state s).pos.sub collisionPoint).lenSquared =
      (((w.obj this).state s).pos.sub collisionPoint).lenSquared)
    (hv : ((w.obj this).state s).vel = (((w.obj this).state s).pos.sub collisionPoint).scale k) :
    let n := (((w.obj this).state s).pos.sub collisionPoint).normalize env.sqrt
    let v := ((w.obj this).state s).vel
    let w1 := computeCollisionResponseBarrier env w this s collisionPoint
    ((w1.obj this).state s).vel = v.scale (1 - MoveObjectCollisionElasticity) ∧
    1 - MoveObjectCollisionElasticity = -(7 / 10) ∧
    ((w1.obj this).state s).vel.lenSquared =
      (MoveObjectCollisionElasticity - 1) * (MoveObjectCollisionElasticity - 1) * v.lenSquared ∧
    (∀ t : Point, t.dot n = 0 →
      t.dot ((w1.obj this).state s).vel = t.dot v ∧ t.dot v = 0) := by
  have h4 := computeCollisionResponseBarrier_spec env w this s collisionPoint hthis hpos hsqrt
  dsimp only at h4 ⊢
  obtain ⟨-, hn, e1, -, hperp⟩ := h4
  have hl : env.sqrt (((w.obj this).state s).pos.sub collisionPoint).lenSquared ≠ 0 := by
    intro h0
    have hd := Point.lenSquared_pos_of_ne hpos
    rw [h0] at hsqrt
    linarith
  have hvn := Point.scale_eq_normalize_scale env.sqrt
    (((w.obj this).state s).pos.sub collisionPoint) k hl
  rw [← hv] at hvn
  have e2 := Point.reflect_parallel _ _ MoveObjectCollisionElasticity _ hn hvn
  refine ⟨e1.trans e2, by norm_num [MoveObjectCollisionElasticity], ?_, ?_⟩
  · rw [e1, e2]
    simp only [Point.lenSquared, Point.scale]
    ring
  · intro t ht
    exact ⟨hperp t ht, Point.dot_parallel_of_perp _ _ _ _ ht hvn⟩

/-- Witness of C5 (amended): the ball at `(1,0)` with velocity `(-10,0)` bounces off a barrier
at the origin with velocity `(7,0)`. -/
theorem computeCollisionResponseBarrier_headOn_witness :
    (((computeCollisionResponseBarrier emptyEnv headOnBall 0 StateIndex.ActualState ⟨0, 0⟩).obj
        0).state StateIndex.ActualState).vel = ⟨7, 0⟩ :=
  (computeCollisionResponseBarrier_headOn emptyEnv headOnBall 0 StateIndex.ActualState ⟨0, 0⟩
    (-10) (by decide) (by decide!) (by decide!) (by decide!)).1.trans (by decide!)

/-! ## Interpolation (C9, C10) -/

/-- A step of length `r * time` from `R` towards `A` stays on the segment from `R` to `A`
when it is not longer than the distance `l`, and does not increase the squared distance. -/
theorem Point.segment_step (R A : Point) (l r time : ℚ) (hl : 0 < l)
    (hl2 : l * l = (A.sub R).lenSquared) (hr0 : 0 ≤ r) (ht : 0 ≤ time) (hrt : r * time ≤ l) :
    ∃ lam : ℚ, 0 ≤ lam ∧ lam ≤ 1 ∧
      R.add (((((A.sub R).scale (1 / l))).scale r).scale time) = R.add ((A.sub R).scale lam) ∧
      (A.sub (R.add (((((A.sub R).scale (1 / l))).scale r).scale time))).lenSquared ≤
        (A.sub R).lenSquared := by
  refine ⟨r * time / l, by positivity, (div_le_one hl).mpr hrt, ?_, ?_⟩
  · simp only [Point.add, Point.sub, Point.scale, Point.mk.injEq]
    constructor <;> (field_simp; ring)
  · have h1 : (A.sub (R.add (((((A.sub R).scale (1 / l))).scale r).scale time))).lenSquared =
        (1 - r * time / l) * (1 - r * time / l) * (A.sub R).lenSquared := by
      simp only [Point.add, Point.sub, Point.scale, Point.lenSquared]
      field_simp
      ring
    rw [h1]
    have h2 : 0 ≤ r * time / l := by positivity
    have h3 : r * time / l ≤ 1 := (div_le_one hl).mpr hrt
    have h4 : 0 ≤ (A.sub R).lenSquared := by
      simp only [Point.lenSquared]; nlinarith [mul_self_nonneg (A.sub R).x, mul_self_nonneg (A.sub R).y]
    have h5 : (1 - r * time / l) * (1 - r * time / l) ≤ 1 := by nlinarith
    nlinarith




/-- The two outcomes of `updateInterpolation`: a snap to the actual state, or one easing step. -/
theorem updateInterpolation_cases (env : Env) (o : GameObject) :
    ((updateInterpolation env o).render = o.actual ∧
      (updateInterpolation env o).mInterpolating = false ∧
      (updateInterpolation env o).actual = o.actual) ∨
    (o.mInterpolating = true ∧ interpDistance env o ≠ 0 ∧
      ¬ interpRvel env o * interpTime o > interpDistance env o ∧ interpHit env o = false ∧
      (updateInterpolation env o).render =
        { pos := o.render.pos.add (((interpDirection env o).scale
            (interpRvel env o + interpAccel env o * interpTime o)).scale (interpTime o))
          vel := (interpDirection env o).scale
            (interpRvel env o + interpAccel env o * interpTime o)
          angle := o.actual.angle } ∧
      (updateInterpolation env o).mInterpolating = true ∧
      (updateInterpolation env o).actual = o.actual) := by
  have e1 : interpDistance env (copyAngle o) = interpDistance env o := rfl
  have e2 : interpRvel env (copyAngle o) = interpRvel env o := rfl
  have e3 : interpTime (copyAngle o) = interpTime o := rfl
  have e4 : interpHit env (copyAngle o) = interpHit env o := rfl
  have e5 : (copyAngle o).mInterpolating = o.mInterpolating := rfl
  unfold updateInterpolation
  simp only [e1, e2, e3, e4, e5]
  by_cases h1 : o.mInterpolating = true
  · rw [if_pos h1]
    by_cases h2 : interpDistance env o = 0
    · left
      rw [if_pos h2]
      exact ⟨rfl, rfl, rfl⟩
    · by_cases h3 : interpRvel env o * interpTime o > interpDistance env o
      · left
        rw [if_neg h2, if_pos h3]
        exact ⟨rfl, rfl, rfl⟩
      · by_cases h4 : interpHit env o = true
        · left
          rw [if_neg h2, if_neg h3, if_pos h4]
          exact ⟨rfl, rfl, rfl⟩
        · right
          rw [if_neg h2, if_neg h3, if_neg h4]
          exact ⟨h1, h2, h3, by simpa using h4, rfl, h1, rfl⟩
  · left
    rw [if_neg h1]
    exact ⟨rfl, rfl, rfl⟩

theorem interpRvel_nonneg (env : Env) (o : GameObject) : 0 ≤ interpRvel env o := by
  unfold interpRvel
  dsimp only
  split_ifs <;> linarith

theorem interpMaxVel_nonneg (env : Env) (o : GameObject) (hnn : ∀ q, 0 ≤ env.sqrt q) :
    0 ≤ interpMaxVel env o := by
  have h := hnn o.actual.vel.lenSquared
  unfold interpMaxVel
  dsimp only [Point.len]
  split_ifs <;> linarith

theorem interpRequestVel_bounds (env : Env) (o : GameObject) (hnn : ∀ q, 0 ≤ env.sqrt q)
    (ht : 0 < interpTime o) :
    0 ≤ interpRequestVel env o ∧
      interpRequestVel env o * interpTime o ≤ interpDistance env o := by
  have hM := interpMaxVel_nonneg env o hnn
  have hd : 0 ≤ interpDistance env o := hnn _
  have hq : 0 ≤ interpDistance env o / interpTime o := div_nonneg hd ht.le
  have hqt : interpDistance env o / interpTime o * interpTime o = interpDistance env o := by
    field_simp
  unfold interpRequestVel
  dsimp only
  split_ifs with h
  · refine ⟨hM, ?_⟩
    have : interpMaxVel env o * interpTime o ≤
        interpDistance env o / interpTime o * interpTime o :=
      mul_le_mul_of_nonneg_right h.le ht.le
    linarith
  · exact ⟨hq, hqt.le⟩

/-- In the easing step the new closing speed is not negative and the step does not pass the
target. -/
theorem interp_step_bounds (env : Env) (o : GameObject) (hnn : ∀ q, 0 ≤ env.sqrt q)
    (hIA : 0 ≤ env.InterpAcceleration) (ht : 0 < interpTime o) :
    0 ≤ interpRvel env o + interpAccel env o * interpTime o ∧
      (interpRvel env o + interpAccel env o * interpTime o) * interpTime o ≤
        interpDistance env o := by
  obtain ⟨hr0, hr1⟩ := interpRequestVel_bounds env o hnn ht
  have hv := interpRvel_nonneg env o
  have hdiv : (interpRequestVel env o - interpRvel env o) / interpTime o * interpTime o =
      interpRequestVel env o - interpRvel env o := by
    field_simp
  unfold interpAccel
  dsimp only
  split_ifs with h
  · have h1 : env.InterpAcceleration * interpTime o ≤
        (interpRequestVel env o - interpRvel env o) / interpTime o * interpTime o :=
      mul_le_mul_of_nonneg_right h.le ht.le
    have h2 : 0 ≤ env.InterpAcceleration * interpTime o := mul_nonneg hIA ht.le
    refine ⟨by linarith, ?_⟩
    have h3 : interpRvel env o + env.InterpAcceleration * interpTime o ≤
        interpRequestVel env o := by linarith
    have h4 := mul_le_mul_of_nonneg_right h3 ht.le
    linarith
  · rw [hdiv]
    constructor
    · linarith
    · have : interpRvel env o + (interpRequestVel env o - interpRvel env o) =
          interpRequestVel env o := by ring
      rw [this]
      exact hr1

/-- C9: with a positive elapsed time, a call of `updateInterpolation` leaves the actual state
alone, puts the new render position on the segment between the old render position and the
actual position, and does not increase the (squared) position gap; when the entity is still
interpolating afterwards, the step length `rvel * time` is at most the gap. Assumed:
`InterpAcceleration` is not negative, the square root is never negative, and it is exact at the
squared gap. -/
theorem updateInterpolation_no_overshoot (env : Env) (o : GameObject)
    (ht : 0 < o.mCurrentMoveTime) (hIA : 0 ≤ env.InterpAcceleration)
    (hnn : ∀ q, 0 ≤ env.sqrt q)
    (hex : env.sqrt (o.actual.pos.sub o.render.pos).lenSquared *
        env.sqrt (o.actual.pos.sub o.render.pos).lenSquared =
      (o.actual.pos.sub o.render.pos).lenSquared) :
    (updateInterpolation env o).actual = o.actual ∧
    (∃ lam : ℚ, 0 ≤ lam ∧ lam ≤ 1 ∧
      (updateInterpolation env o).render.pos =
        o.render.pos.add ((o.actual.pos.sub o.render.pos).scale lam)) ∧
    (o.actual.pos.sub (updateInterpolation env o).render.pos).lenSquared ≤
      (o.actual.pos.sub o.render.pos).lenSquared ∧
    ((updateInterpolation env o).mInterpolating = true →
      0 ≤ interpRvel env o + interpAccel env o * interpTime o ∧
      (interpRvel env o + interpAccel env o * interpTime o) * interpTime o ≤
        interpDistance env o) := by
  have htime : 0 < interpTime o := by
    unfold interpTime
    have : (0 : ℚ) < (o.mCurrentMoveTime : ℚ) := by exact_mod_cast ht
    positivity
  have hb := interp_step_bounds env o hnn hIA htime
  rcases updateInterpolation_cases env o with ⟨hr, hi, ha⟩ | ⟨-, h2, -, -, hr, -, ha⟩
  · refine ⟨ha, ⟨1, by norm_num, le_refl 1, ?_⟩, ?_, ?_⟩
    · rw [hr]
      simp only [Point.add, Point.sub, Point.scale]
      cases hp : o.actual.pos
      simp
    · rw [hr]
      simp only [Point.sub, Point.lenSquared]
      nlinarith [mul_self_nonneg (o.actual.pos.x - o.render.pos.x),
        mul_self_nonneg (o.actual.pos.y - o.render.pos.y)]
    · intro h
      rw [hi] at h
      exact absurd h (by decide)
  · have hl : 0 < interpDistance env o := lt_of_le_of_ne (hnn _) (Ne.symm h2)
    obtain ⟨lam, hl0, hl1, hpos, hgap⟩ := Point.segment_step o.render.pos o.actual.pos
      (interpDistance env o) (interpRvel env o + interpAccel env o * interpTime o)
      (interpTime o) hl hex hb.1 htime.le hb.2
    have hp : (updateInterpolation env o).render.pos = o.render.pos.add
        (((((o.actual.pos.sub o.render.pos).scale (1 / interpDistance env o))).scale
          (interpRvel env o + interpAccel env o * interpTime o)).scale (interpTime o)) := by
      rw [hr]
      rfl
    refine ⟨ha, ⟨lam, hl0, hl1, hp.trans hpos⟩, ?_, fun _ => hb⟩
    rw [hp]
    exact hgap

theorem exampleSqrt_nonneg (q : ℚ) : 0 ≤ exampleSqrt q := by
  unfold exampleSqrt
  positivity

/-- Witness of C9: a render position at the origin eases towards the actual position `(3,4)`
for one millisecond; the entity is still interpolating and the gap has not grown. -/
theorem updateInterpolation_no_overshoot_witness :
    (updateInterpolation emptyEnv easingBall).mInterpolating = true ∧
    (updateInterpolation emptyEnv easingBall).render.pos = ⟨27 / 25000, 9 / 6250⟩ ∧
    (easingBall.actual.pos.sub (updateInterpolation emptyEnv easingBall).render.pos).lenSquared ≤
      (easingBall.actual.pos.sub easingBall.render.pos).lenSquared :=
  ⟨by decide!, by decide!,
    (updateInterpolation_no_overshoot emptyEnv easingBall (by decide) (by decide!)
      exampleSqrt_nonneg (by decide!)).2.2.1⟩

/-- C10: if `updateInterpolation` is called while the entity is not interpolating, or while
interpolating with a zero position gap (the computed `distance` is zero; in particular when the
two positions coincide and the square root of zero is zero), then afterwards the render slot
equals the actual slot (position, velocity and angle), the actual slot is unchanged and the
interpolating flag is false. -/
theorem updateInterpolation_snap (env : Env) (o : GameObject)
    (h : o.mInterpolating = false ∨ (o.actual.pos.sub o.render.pos).len env.sqrt = 0 ∨
      (o.actual.pos = o.render.pos ∧ env.sqrt 0 = 0)) :
    (updateInterpolation env o).render = o.actual ∧
    (updateInterpolation env o).actual = o.actual ∧
    (updateInterpolation env o).mInterpolating = false := by
  rcases updateInterpolation_cases env o with ⟨hr, hi, ha⟩ | ⟨h1, h2, -⟩
  · exact ⟨hr, ha, hi⟩
  · exfalso
    rcases h with h | h | ⟨hp, h0⟩
    · rw [h] at h1
      exact absurd h1 (by decide)
    · exact h2 h
    · apply h2
      unfold interpDistance interpDeltaP
      rw [hp]
      simp only [Point.len, Point.sub, Point.lenSquared, sub_self, mul_zero, add_zero]
      exact h0

/-- Witness of C10: an interpolating entity whose render position already is the actual
position snaps to the actual state. -/
theorem updateInterpolation_snap_witness :
    (updateInterpolation emptyEnv arrivedBall).render = arrivedBall.actual ∧
    (updateInterpolation emptyEnv arrivedBall).actual = arrivedBall.actual ∧
    (updateInterpolation emptyEnv arrivedBall).mInterpolating = false :=
  updateInterpolation_snap emptyEnv arrivedBall (Or.inr (Or.inr ⟨by decide!, by decide!⟩))

/-! ## Frame facts: kinds of the objects -/

theorem kinds_length (w : World) : (kinds w).length = w.objs.length := by
  simp [kinds]

theorem kinds_modify_of_eq (w : World) (i : Nat) (f : GameObject → GameObject)
    (hf : ∀ o, (f o).kind = o.kind) :
    kinds (w.modify i f) = kinds w := by
  apply List.ext_getElem?
  intro j
  simp only [kinds, World.modify, List.getElem?_map, List.getElem?_modify]
  cases w.objs[j]? with
  | none => rfl
  | some o =>
    by_cases hij : i = j
    · simp [hij, hf]
    · simp [hij]

theorem kinds_modify_collision (w : World) (i : Nat) (b : Bool) :
    kinds (w.modify i (fun o => { o with collisionEnabled := b })) =
      (kinds w).modify (Kind.withCollision b) i := by
  apply List.ext_getElem?
  intro j
  simp only [kinds, World.modify, List.getElem?_map, List.getElem?_modify]
  cases w.objs[j]? with
  | none => rfl
  | some o =>
    by_cases hij : i = j
    · simp [hij, GameObject.kind, Kind.withCollision]
    · simp [hij]

theorem length_eq_of_kinds_eq {w w1 : World} (h : kinds w1 = kinds w) :
    w1.objs.length = w.objs.length := by
  rw [← kinds_length, ← kinds_length, h]

theorem kinds_getElem?_obj (w : World) (j : Nat) (h : j < w.objs.length) :
    (kinds w)[j]? = some (w.obj j).kind := by
  simp [kinds, World.obj, List.getD_eq_getElem?_getD, List.getElem?_eq_getElem h]

theorem collisionEnabled_obj (w : World) (j : Nat) :
    (w.obj j).collisionEnabled = ((kinds w)[j]?.map Kind.collisionEnabled).getD false := by
  simp only [World.obj, kinds, List.getD_eq_getElem?_getD, List.getElem?_map]
  cases w.objs[j]? <;> rfl

theorem kind_obj (w : World) (j : Nat) :
    (w.obj j).kind = ((kinds w)[j]?).getD (default : GameObject).kind := by
  simp only [World.obj, kinds, List.getD_eq_getElem?_getD, List.getElem?_map]
  cases w.objs[j]? <;> rfl

theorem kind_obj_of_kinds_eq {w w1 : World} (h : kinds w1 = kinds w) (j : Nat) :
    (w1.obj j).kind = (w.obj j).kind := by
  rw [kind_obj, kind_obj, h]

theorem kind_setState (o : GameObject) (s : StateIndex) (m : MoveState) :
    (o.setState s m).kind = o.kind := by
  cases s <;> rfl

theorem kinds_advance (w : World) (this : Nat) (s : StateIndex) (t : ℚ) :
    kinds (advance w this s t) = kinds w :=
  kinds_modify_of_eq _ _ _ (fun _ => kind_setState _ _ _)

theorem kinds_computeCollisionResponseBarrier (env : Env) (w : World) (this : Nat)
    (s : StateIndex) (cp : Point) :
    kinds (computeCollisionResponseBarrier env w this s cp) = kinds w :=
  kinds_modify_of_eq _ _ _ (fun _ => kind_setState _ _ _)

theorem kinds_computeCollisionResponseMoveObject (env : Env) (w : World) (this : Nat)
    (s : StateIndex) (hit : Nat) :
    kinds (computeCollisionResponseMoveObject env w this s hit) = kinds w :=
  (kinds_modify_of_eq _ _ _ (fun _ => kind_setState _ _ _)).trans
    (kinds_modify_of_eq _ _ _ (fun _ => kind_setState _ _ _))

/-- The object reported by the scan of `findFirstCollision` is an object of the world whose
collision is enabled, when this holds for the object it started with. -/
theorem findFirstCollisionScan_enabled (env : Env) (objs : List GameObject) (me : GameObject)
    (s : StateIndex) (cand : List Nat) :
    ∀ sw : Sweep,
      (∀ h, sw.collisionObject = some h → ∃ o, objs[h]? = some o ∧ o.collisionEnabled = true) →
      ∀ h, (findFirstCollisionScan env objs me s cand sw).collisionObject = some h →
        ∃ o, objs[h]? = some o ∧ o.collisionEnabled = true := by
  induction cand with
  | nil =>
    intro sw hsw h hh
    exact hsw h (by simpa [findFirstCollisionScan] using hh)
  | cons i rest ih =>
    intro sw hsw h
    unfold findFirstCollisionScan
    split
    · exact ih sw hsw h
    · rename_i foundObject hfound
      by_cases hen : foundObject.collisionEnabled = true
      · have hi : ∀ h, some i = some h → ∃ o, objs[h]? = some o ∧ o.collisionEnabled = true := by
          intro h hh
          cases hh
          exact ⟨foundObject, hfound, hen⟩
        simp only [hen, Bool.not_true, Bool.false_eq_true, if_false]
        repeat' first
          | exact ih sw hsw h
          | exact ih _ hi h
          | exact fun hh => hi h (by simpa using hh)
          | split
      · simp only [hen, Bool.not_false, if_true]
        exact ih sw hsw h

theorem findFirstCollision_enabled (env : Env) (w : World) (this : Nat) (s : StateIndex)
    (t : ℚ) (cp : Point) (h : Nat)
    (hh : (findFirstCollision env w this s t cp).collisionObject = some h) :
    h < w.objs.length ∧ (w.obj h).collisionEnabled = true := by
  obtain ⟨o, ho, hen⟩ := findFirstCollisionScan_enabled env w.objs (w.obj this) s _ _
    (by intro h hh; simp at hh) h hh
  have hlt : h < w.objs.length := by
    by_contra hcon
    rw [List.getElem?_eq_none (not_lt.mp hcon)] at ho
    cases ho
  refine ⟨hlt, ?_⟩
  simp [World.obj, List.getD_eq_getElem?_getD, ho, hen]

/-! ## One iteration of the loop of `move` -/

/-- What the `isMoveObject` block of the loop leaves behind when it returns: the counters and
the disabled list are untouched, the displacer list has at most grown, and the collision flags
are those of the world it started from, provided recursive calls keep the flags. -/
theorem moveHitMoveObject_spec (env : Env)
    (recMove : ℚ → Nat → List Nat → World → Option World)
    (hrec : ∀ t that l w1 w2, recMove t that l w1 = some w2 → kinds w2 = kinds w1)
    (this : Nat) (s : StateIndex) (d : Bool) (st : LoopState) (w : World) (h : Nat) (ct : ℚ)
    (b : Bool) (st1 : LoopState)
    (hb : moveHitMoveObject env recMove this s d st w h ct = some (b, st1)) :
    st1.tryCount = st.tryCount ∧ st1.disabledList = st.disabledList ∧
      kinds st1.world = kinds w ∧ (∀ x ∈ st.displacerList, x ∈ st1.displacerList) := by
  unfold moveHitMoveObject at hb
  dsimp only at hb
  split_ifs at hb with h1 h2 h3 h4 h5
  · cases hb
    exact ⟨rfl, rfl, rfl, fun x hx => hx⟩
  · cases hb
    exact ⟨rfl, rfl, kinds_computeCollisionResponseMoveObject _ _ _ _ _, fun x hx => hx⟩
  · cases hb
    exact ⟨rfl, rfl, kinds_computeCollisionResponseMoveObject _ _ _ _ _, fun x hx => hx⟩
  · cases hb
    exact ⟨rfl, rfl, rfl, fun x hx => hx⟩
  · split at hb
    · cases hb
    · rename_i w2 hw2
      cases hb
      refine ⟨rfl, rfl, ?_, fun x hx => List.mem_append_left _ hx⟩
      exact (kinds_modify_of_eq w2 this
        (fun o => { o with mHitLimit := o.mHitLimit - 1 }) (fun _ => rfl)).trans
        (hrec _ _ _ _ _ hw2)
  · cases hb
    exact ⟨rfl, rfl, rfl, fun x hx => List.mem_append_left _ hx⟩

/-- The `isMoveObject` block returns when the recursive push it may make returns. -/
theorem moveHitMoveObject_isSome (env : Env)
    (recMove : ℚ → Nat → List Nat → World → Option World)
    (this : Nat) (s : StateIndex) (d : Bool) (st : LoopState) (w : World) (h : Nat) (ct : ℚ)
    (hcall : (d = true → h ∉ st.displacerList) →
      ∀ t, (recMove t h (st.displacerList ++ [this]) w).isSome = true) :
    (moveHitMoveObject env recMove this s d st w h ct).isSome = true := by
  unfold moveHitMoveObject
  dsimp only
  split_ifs with h1 h2 h3 h4 h5
  · rfl
  · rfl
  · rfl
  · rfl
  · have hguard : d = true → h ∉ st.displacerList := by
      intro hd hmem
      apply h1
      simp [hd, hmem]
    have := hcall hguard
      (computeMinSeperationTime env w this s h
        (((w.obj this).state s).pos.add (((w.obj this).state s).vel.scale st.moveTime)) +
        displaceEpsilon)
    split
    · rename_i hnone
      rw [hnone] at this
      cases this
    · rfl
  · rfl

theorem kinds_moveHitSpeedZone (env : Env) (this : Nat) (s : StateIndex) (st : LoopState)
    (w : World) (h : Nat) (ct : ℚ) :
    kinds (moveHitSpeedZone env this s st w h ct).world = (kinds w).modify (Kind.withCollision false) h := by
  unfold moveHitSpeedZone
  dsimp only
  rw [show GameObject.disableCollision = (fun o => { o with collisionEnabled := false }) from rfl,
    kinds_modify_collision]
  split_ifs
  · rw [kinds_modify_of_eq _ _ _ (fun _ => kind_setState _ _ _)]
  · rfl

/-- The effect of one iteration of the loop on the counters, lists and collision flags: either
the iteration is counted and the kinds and the disabled list are as before, or a speed zone
with enabled collision was hit, which is now disabled and remembered, and the iteration is not
counted. -/
theorem moveBody_spec (env : Env)
    (recMove : ℚ → Nat → List Nat → World → Option World)
    (hrec : ∀ t that l w1 w2, recMove t that l w1 = some w2 → kinds w2 = kinds w1)
    (this : Nat) (s : StateIndex) (d : Bool) (st : LoopState) (b : Bool) (st1 : LoopState)
    (hb : moveBody env recMove this s d st = some (b, st1)) :
    (∀ x ∈ st.displacerList, x ∈ st1.displacerList) ∧
    ((st1.tryCount = st.tryCount + 1 ∧ st1.disabledList = st.disabledList ∧
        kinds st1.world = kinds st.world) ∨
      (b = true ∧ st1.tryCount = st.tryCount ∧
        ∃ h k, st1.disabledList = st.disabledList ++ [h] ∧ (kinds st.world)[h]? = some k ∧
          isEnabledZone env k = true ∧
          kinds st1.world = (kinds st.world).modify (Kind.withCollision false) h)) := by
  unfold moveBody at hb
  dsimp only at hb
  split_ifs at hb with h1
  · cases hb
    exact ⟨fun x hx => hx, Or.inl ⟨rfl, rfl, rfl⟩⟩
  · split at hb
    · cases hb
      exact ⟨fun x hx => hx, Or.inl ⟨rfl, rfl, kinds_advance _ _ _ _⟩⟩
    · rename_i objectHit hfound
      obtain ⟨hlt, hen⟩ := findFirstCollision_enabled env st.world this s _ _ objectHit hfound
      split_ifs at hb with h2 h3 h4
      · obtain ⟨e1, e2, e3, e4⟩ := moveHitMoveObject_spec env recMove hrec this s d _ _ _ _ b st1 hb
        exact ⟨e4, Or.inl ⟨e1, e2, e3.trans (kinds_advance _ _ _ _)⟩⟩
      · cases hb
        refine ⟨fun x hx => hx, Or.inl ⟨rfl, rfl, ?_⟩⟩
        exact (kinds_computeCollisionResponseBarrier _ _ _ _ _).trans (kinds_advance _ _ _ _)
      · cases hb
        have hk := kind_obj_of_kinds_eq (kinds_advance { st.world with
            findFirstCollisionCalls := st.world.findFirstCollisionCalls + 1 } this s
            (findFirstCollision env st.world this s st.moveTime Point.zero).collisionTime)
            objectHit
        have hk2 : ({ st.world with
            findFirstCollisionCalls := st.world.findFirstCollisionCalls + 1 } : World).obj
              objectHit = st.world.obj objectHit := rfl
        rw [hk2] at hk
        refine ⟨fun x hx => hx, Or.inr ⟨rfl, rfl, objectHit, (st.world.obj objectHit).kind, rfl,
          kinds_getElem?_obj _ _ hlt, ?_, ?_⟩⟩
        · have f1 : (st.world.obj objectHit).kind.isMoveObject = false := by
            rw [← hk]
            simpa [GameObject.kind] using h2
          have f2 : env.isCollideableType (st.world.obj objectHit).kind.objectTypeNumber =
              false := by
            rw [← hk]
            simpa [GameObject.kind] using h3
          have f3 : (st.world.obj objectHit).kind.objectTypeNumber = env.SpeedZoneTypeNumber := by
            rw [← hk]
            exact h4
          have f4 : (st.world.obj objectHit).kind.collisionEnabled = true := hen
          unfold isEnabledZone
          rw [f4, f1, f2, f3]
          simp
        · rw [kinds_moveHitSpeedZone, kinds_advance]
          rfl
      · cases hb
        exact ⟨fun x hx => hx, Or.inl ⟨rfl, rfl, kinds_advance _ _ _ _⟩⟩

/-- One iteration of the loop returns when the recursive push it may make returns. -/
theorem moveBody_isSome (env : Env)
    (recMove : ℚ → Nat → List Nat → World → Option World)
    (this : Nat) (s : StateIndex) (d : Bool) (st : LoopState)
    (hcall : ∀ t h w1, kinds w1 = kinds st.world → h < st.world.objs.length →
      (d = true → h ∉ st.displacerList) →
      (recMove t h (st.displacerList ++ [this]) w1).isSome = true) :
    (moveBody env recMove this s d st).isSome = true := by
  unfold moveBody
  dsimp only
  split_ifs with h1
  · rfl
  · split
    · rfl
    · rename_i objectHit hfound
      have hlt := (findFirstCollision_enabled env st.world this s _ _ objectHit hfound).1
      split_ifs with h2 h3 h4
      · apply moveHitMoveObject_isSome
        intro hg t
        exact hcall t objectHit _ (kinds_advance _ _ _ _) hlt hg
      · rfl
      · rfl
      · rfl

/-! ## The loop of `move`: the kinds of the objects -/

theorem moveLoop_exit (env : Env) (recMove : ℚ → Nat → List Nat → World → Option World)
    (this : Nat) (s : StateIndex) (d : Bool) (fuel : Nat) (st : LoopState)
    (h : ¬ (st.moveTime > moveTimeEpsilon ∧ st.tryCount < tryCountCap)) :
    moveLoop env recMove this s d fuel st = some st := by
  unfold moveLoop
  rw [if_neg h]

theorem moveLoop_step (env : Env) (recMove : ℚ → Nat → List Nat → World → Option World)
    (this : Nat) (s : StateIndex) (d : Bool) (fuel : Nat) (st : LoopState)
    (h : st.moveTime > moveTimeEpsilon ∧ st.tryCount < tryCountCap) :
    moveLoop env recMove this s d (fuel + 1) st =
      match moveBody env recMove this s d st with
      | none => none
      | some (true, st1) => moveLoop env recMove this s d fuel st1
      | some (false, st1) => some st1 := by
  rw [moveLoop]
  rw [if_pos h]

theorem Kind.withCollision_true_false (k : Kind) (h : k.collisionEnabled = true) :
    Kind.withCollision true (Kind.withCollision false k) = k := by
  cases k
  simp only [Kind.withCollision] at *
  simp [h]

theorem LoopInv_start (moveTime : ℚ) (l : List Nat) (w : World) :
    LoopInv (kinds w) (moveStart moveTime l w) := by
  constructor
  · intro j
    simp [moveStart]
  · intro j hj
    simp [moveStart] at hj

theorem LoopInv_body (env : Env)
    (recMove : ℚ → Nat → List Nat → World → Option World)
    (hrec : ∀ t that l w1 w2, recMove t that l w1 = some w2 → kinds w2 = kinds w1)
    (this : Nat) (s : StateIndex) (d : Bool) (k0 : List Kind) (st : LoopState) (b : Bool)
    (st1 : LoopState) (hinv : LoopInv k0 st)
    (hb : moveBody env recMove this s d st = some (b, st1)) :
    LoopInv k0 st1 := by
  obtain ⟨-, hcase⟩ := moveBody_spec env recMove hrec this s d st b st1 hb
  obtain ⟨hi1, hi2⟩ := hinv
  rcases hcase with ⟨-, hdl, hk⟩ | ⟨-, -, h, k, hdl, hkh, hzone, hk⟩
  · constructor
    · intro j
      rw [hk, hdl]
      exact hi1 j
    · intro j hj
      rw [hdl] at hj
      exact hi2 j hj
  · have hen : k.collisionEnabled = true := by
      simp only [isEnabledZone, Bool.and_eq_true] at hzone
      exact hzone.1.1.1
    have hnot : h ∉ st.disabledList := by
      intro hmem
      have e := hi1 h
      rw [if_pos hmem, hkh] at e
      cases hk0 : k0[h]? with
      | none => rw [hk0] at e; cases e
      | some k1 =>
        rw [hk0] at e
        simp only [Option.map_some', Option.some.injEq] at e
        rw [e] at hen
        simp [Kind.withCollision] at hen
    have hk0 : k0[h]? = some k := by
      have e := hi1 h
      rw [if_neg hnot, hkh] at e
      exact e.symm
    constructor
    · intro j
      rw [hk, hdl, List.getElem?_modify]
      by_cases hj : h = j
      · subst hj
        simp [hkh, hk0]
      · have : j ∈ st.disabledList ++ [h] ↔ j ∈ st.disabledList := by
          simp [List.mem_append, Ne.symm hj]
        simp only [hj, if_false, this]
        rw [← hi1 j]
        cases (kinds st.world)[j]? <;> rfl
    · intro j hj
      rw [hdl, List.mem_append, List.mem_singleton] at hj
      rcases hj with hj | hj
      · exact hi2 j hj
      · subst hj
        exact ⟨k, hk0, hen⟩

theorem LoopInv_loop (env : Env)
    (recMove : ℚ → Nat → List Nat → World → Option World)
    (hrec : ∀ t that l w1 w2, recMove t that l w1 = some w2 → kinds w2 = kinds w1)
    (this : Nat) (s : StateIndex) (d : Bool) (k0 : List Kind) (fuel : Nat) :
    ∀ st st1 : LoopState, LoopInv k0 st →
      moveLoop env recMove this s d fuel st = some st1 → LoopInv k0 st1 := by
  induction fuel with
  | zero =>
    intro st st1 hinv hl
    unfold moveLoop at hl
    split_ifs at hl
    cases hl
    exact hinv
  | succ fuel ih =>
    intro st st1 hinv hl
    by_cases hc : st.moveTime > moveTimeEpsilon ∧ st.tryCount < tryCountCap
    · rw [moveLoop_step _ _ _ _ _ _ _ hc] at hl
      split at hl
      · cases hl
      · rename_i st2 hb
        exact ih st2 st1 (LoopInv_body env recMove hrec this s d k0 st true st2 hinv hb) hl
      · rename_i st2 hb
        cases hl
        exact LoopInv_body env recMove hrec this s d k0 st false st1 hinv hb
    · rw [moveLoop_exit _ _ _ _ _ _ _ hc] at hl
      cases hl
      exact hinv

theorem kinds_enableDisabled (dl : List Nat) :
    ∀ (w : World) (j : Nat), (kinds (enableDisabled dl w))[j]? =
      if j ∈ dl then ((kinds w)[j]?).map (Kind.withCollision true) else (kinds w)[j]? := by
  induction dl with
  | nil =>
    intro w j
    simp [enableDisabled]
  | cons i rest ih =>
    intro w j
    rw [enableDisabled, ih,
      show GameObject.enableCollision = (fun o => { o with collisionEnabled := true }) from rfl,
      kinds_modify_collision, List.getElem?_modify]
    by_cases hij : i = j
    · subst hij
      cases (kinds w)[i]? with
      | none => simp
      | some k => simp [Kind.withCollision]
    · have : j ∈ i :: rest ↔ j ∈ rest := by
        simp [Ne.symm hij]
      simp only [hij, if_false, this]
      cases (kinds w)[j]? <;> rfl

theorem kinds_moveFinish (this : Nat) (s : StateIndex) (k0 : List Kind) (st : LoopState)
    (hinv : LoopInv k0 st) : kinds (moveFinish this s st) = k0 := by
  have h1 : kinds (moveFinish this s st) = kinds (enableDisabled st.disabledList st.world) := by
    unfold moveFinish
    dsimp only
    split_ifs
    · exact kinds_modify_of_eq _ _ _ (fun _ => kind_setState _ _ _)
    · rfl
  rw [h1]
  apply List.ext_getElem?
  intro j
  rw [kinds_enableDisabled, hinv.1 j]
  by_cases hj : j ∈ st.disabledList
  · obtain ⟨k, hk, hen⟩ := hinv.2 j hj
    simp [hj, hk, Kind.withCollision_true_false k hen]
  · simp [hj]

/-- A call of `move` that returns leaves the kind of every object as it was: the same objects,
each with its collision flag as on entry. -/
theorem move_kinds (env : Env) (iters : Nat) (depth : Nat) :
    ∀ (moveTime : ℚ) (this : Nat) (s : StateIndex) (d : Bool) (l : List Nat) (w w1 : World),
      move env iters depth moveTime this s d l w = some w1 → kinds w1 = kinds w := by
  induction depth with
  | zero =>
    intro moveTime this s d l w w1 h
    simp [move] at h
  | succ depth ih =>
    intro moveTime this s d l w w1 h
    simp only [move] at h
    split at h
    · cases h
    · rename_i st hst
      cases h
      apply kinds_moveFinish
      exact LoopInv_loop env _ (fun t that l1 w2 w3 h3 => ih t that s true l1 w2 w3 h3)
        this s d (kinds w) iters _ st (LoopInv_start moveTime l w) hst

/-! ## Termination of `move` -/

theorem countP_modify_succ {α : Type} (p : α → Bool) (f : α → α) :
    ∀ (l : List α) (h : Nat) (k : α), l[h]? = some k → p k = true → p (f k) = false →
      (l.modify f h).countP p + 1 = l.countP p := by
  intro l
  induction l with
  | nil =>
    intro h k hk
    simp at hk
  | cons a rest ih =>
    intro h k hk hp hpf
    cases h with
    | zero =>
      simp only [List.getElem?_cons_zero, Option.some.injEq] at hk
      subst hk
      simp [List.modify, List.countP_cons, hp, hpf]
    | succ h =>
      simp only [List.getElem?_cons_succ] at hk
      have := ih h k hk hp hpf
      simp only [List.modify_succ_cons, List.countP_cons]
      omega

theorem zoneCount_of_kinds_eq (env : Env) {w w1 : World} (h : kinds w1 = kinds w) :
    zoneCount env w1 = zoneCount env w := by
  unfold zoneCount
  rw [h]

theorem zoneCount_disable (env : Env) (w w1 : World) (h : Nat) (k : Kind)
    (hk : (kinds w)[h]? = some k) (hz : isEnabledZone env k = true)
    (h1 : kinds w1 = (kinds w).modify (Kind.withCollision false) h) :
    zoneCount env w1 + 1 = zoneCount env w := by
  unfold zoneCount
  rw [h1]
  apply countP_modify_succ _ _ _ h k hk hz
  simp [isEnabledZone, Kind.withCollision]

/-- The loop of `move` returns within `8 - tryCount` counted iterations plus one iteration for
every speed zone with enabled collision, when every recursive push it makes returns. -/
theorem moveLoop_isSome (env : Env)
    (recMove : ℚ → Nat → List Nat → World → Option World)
    (hrec : ∀ t that l w1 w2, recMove t that l w1 = some w2 → kinds w2 = kinds w1)
    (this : Nat) (s : StateIndex) (d : Bool) (n z : Nat) (l0 : List Nat)
    (hcall : ∀ t h lc w1, w1.objs.length = n → zoneCount env w1 ≤ z → h < n →
      (∀ x ∈ l0, x ∈ lc) → (d = true → h ∉ lc) →
      (recMove t h (lc ++ [this]) w1).isSome = true)
    (fuel : Nat) :
    ∀ st : LoopState, st.world.objs.length = n → zoneCount env st.world ≤ z →
      (∀ x ∈ l0, x ∈ st.displacerList) →
      (tryCountCap - st.tryCount) + zoneCount env st.world ≤ fuel →
      (moveLoop env recMove this s d fuel st).isSome = true := by
  induction fuel with
  | zero =>
    intro st _ _ _ hfuel
    rw [moveLoop_exit]
    · rfl
    · intro hc
      have := hc.2
      omega
  | succ fuel ih =>
    intro st hlen hz hl0 hfuel
    by_cases hc : st.moveTime > moveTimeEpsilon ∧ st.tryCount < tryCountCap
    · have hsome := moveBody_isSome env recMove this s d st (by
        intro t h w1 hk hh hg
        exact hcall t h st.displacerList w1
          ((length_eq_of_kinds_eq hk).trans hlen)
          (by rw [zoneCount_of_kinds_eq env hk]; exact hz)
          (by rw [← hlen]; exact hh) hl0 hg)
      rw [moveLoop_step _ _ _ _ _ _ _ hc]
      cases hb : moveBody env recMove this s d st with
      | none =>
        rw [hb] at hsome
        cases hsome
      | some r =>
        obtain ⟨b, st1⟩ := r
        obtain ⟨hdl, hcase⟩ := moveBody_spec env recMove hrec this s d st b st1 hb
        cases b with
        | false => rfl
        | true =>
          show (moveLoop env recMove this s d fuel st1).isSome = true
          have hc2 := hc.2
          rcases hcase with ⟨htc, -, hk⟩ | ⟨-, htc, h, k, -, hkh, hzone, hk⟩
          · apply ih st1 ((length_eq_of_kinds_eq hk).trans hlen)
              (by rw [zoneCount_of_kinds_eq env hk]; exact hz)
              (fun x hx => hdl x (hl0 x hx))
            rw [zoneCount_of_kinds_eq env hk, htc]
            omega
          · have hz1 := zoneCount_disable env st.world st1.world h k hkh hzone hk
            apply ih st1
              (by rw [← kinds_length, hk, List.length_modify, kinds_length]; exact hlen)
              (by omega) (fun x hx => hdl x (hl0 x hx))
            rw [htc]
            omega
    · rw [moveLoop_exit _ _ _ _ _ _ _ hc]
      rfl

theorem freeCount_le (n : Nat) (l : List Nat) : freeCount n l ≤ n := by
  unfold freeCount
  calc ((List.range n).filter (fun i => decide (i ∉ l))).length
      ≤ (List.range n).length := List.length_filter_le _ _
    _ = n := List.length_range n

theorem countP_lt_of_imp {α : Type} (p q : α → Bool) (e : α) :
    ∀ xs : List α, (∀ x ∈ xs, p x = true → q x = true) → e ∈ xs → q e = true → p e = false →
      xs.countP p < xs.countP q := by
  intro xs
  induction xs with
  | nil =>
    intro _ he
    simp at he
  | cons a rest ih =>
    intro himp he hq hp
    have hmono : rest.countP p ≤ rest.countP q :=
      List.countP_mono_left (fun x hx => himp x (List.mem_cons_of_mem _ hx))
    rw [List.mem_cons] at he
    rcases he with he | he
    · subst he
      simp only [List.countP_cons, hq, hp, if_true]
      simp
      omega
    · have := ih (fun x hx => himp x (List.mem_cons_of_mem _ hx)) he hq hp
      have ha := himp a (List.mem_cons_self _ _)
      simp only [List.countP_cons]
      by_cases hpa : p a = true
      · simp [hpa, ha hpa]
        omega
      · simp [hpa]
        omega

theorem freeCount_mono (n : Nat) (l l1 : List Nat) (h : ∀ x ∈ l, x ∈ l1) :
    freeCount n l1 ≤ freeCount n l := by
  unfold freeCount
  rw [← List.countP_eq_length_filter, ← List.countP_eq_length_filter]
  apply List.countP_mono_left
  intro x _ hx
  simp only [decide_eq_true_eq] at hx ⊢
  exact fun hmem => hx (h x hmem)

theorem freeCount_lt (n : Nat) (l l1 : List Nat) (e : Nat) (h : ∀ x ∈ l, x ∈ l1)
    (hen : e < n) (hel : e ∉ l) (hel1 : e ∈ l1) :
    freeCount n l1 < freeCount n l := by
  unfold freeCount
  rw [← List.countP_eq_length_filter, ← List.countP_eq_length_filter]
  apply countP_lt_of_imp _ _ e
  · intro x _ hx
    simp only [decide_eq_true_eq] at hx ⊢
    exact fun hmem => hx (h x hmem)
  · exact List.mem_range.mpr hen
  · simpa using hel
  · simpa using hel1

theorem pushMeasure_le (n that : Nat) (l : List Nat) : pushMeasure n that l ≤ 2 * n + 2 := by
  unfold pushMeasure
  have := freeCount_le n l
  split_ifs <;> omega

/-- The push made by a displaced caller has a smaller measure than the caller: the guard keeps
the object pushed out of the caller's displacer list, and the caller itself joins the list. -/
theorem pushMeasure_lt (n this h : Nat) (l0 lc : List Nat) (hthis : this < n)
    (hsub : ∀ x ∈ l0, x ∈ lc) (hguard : h ∉ lc) :
    pushMeasure n h (lc ++ [this]) < pushMeasure n this l0 := by
  unfold pushMeasure
  have hsub2 : ∀ x ∈ l0, x ∈ lc ++ [this] := fun x hx => List.mem_append_left _ (hsub x hx)
  by_cases hmem : this ∈ l0
  · have hne : h ≠ this := fun e => hguard (e ▸ hsub this hmem)
    have hnot : h ∉ lc ++ [this] := by
      simp [List.mem_append, hguard, hne]
    have := freeCount_mono n l0 (lc ++ [this]) hsub2
    simp only [hmem, hnot, if_true, if_false]
    omega
  · have := freeCount_lt n l0 (lc ++ [this]) this hsub2 hthis hmem (by simp)
    simp only [hmem, if_false]
    split_ifs <;> omega

/-- A displaced call of `move` returns when the depth fuel exceeds its measure and the
iteration fuel covers the 8 counted iterations and one iteration for every enabled speed
zone. -/
theorem move_isSome_displaced (env : Env) (iters n z : Nat) (hiters : tryCountCap + z ≤ iters)
    (s : StateIndex) (depth : Nat) :
    ∀ (moveTime : ℚ) (that : Nat) (l : List Nat) (w : World),
      w.objs.length = n → zoneCount env w ≤ z → that < n → pushMeasure n that l < depth →
      (move env iters depth moveTime that s true l w).isSome = true := by
  induction depth with
  | zero =>
    intro _ _ _ _ _ _ _ hm
    omega
  | succ depth ih =>
    intro moveTime that l w hlen hz hthat hm
    simp only [move]
    have hloop := moveLoop_isSome env
      (fun t that1 l1 w1 => move env iters depth t that1 s true l1 w1)
      (fun t that1 l1 w1 w2 h => move_kinds env iters depth t that1 s true l1 w1 w2 h)
      that s true n z l
      (by
        intro t h lc w1 hlen1 hz1 hh hsub hg
        apply ih t h (lc ++ [that]) w1 hlen1 hz1 hh
        have := pushMeasure_lt n that h l lc hthat hsub (hg rfl)
        omega)
      iters (moveStart moveTime l w) hlen hz (fun x hx => hx)
      (by
        show tryCountCap - 0 + zoneCount env w ≤ iters
        omega)
    cases hst : moveLoop env (fun t that1 l1 w1 => move env iters depth t that1 s true l1 w1)
        that s true iters (moveStart moveTime l w) with
    | none =>
      rw [hst] at hloop
      cases hloop
    | some st => rfl

theorem moveLoop_counts (env : Env)
    (recMove : ℚ → Nat → List Nat → World → Option World)
    (hrec : ∀ t that l w1 w2, recMove t that l w1 = some w2 → kinds w2 = kinds w1)
    (this : Nat) (s : StateIndex) (d : Bool) (fuel : Nat) :
    ∀ st st1 : LoopState, st.tryCount ≤ tryCountCap →
      moveLoop env recMove this s d fuel st = some st1 →
      st1.tryCount ≤ tryCountCap ∧
        st1.disabledList.length + zoneCount env st1.world =
          st.disabledList.length + zoneCount env st.world := by
  have hbody : ∀ (st st2 : LoopState) (b : Bool), st.tryCount < tryCountCap →
      moveBody env recMove this s d st = some (b, st2) →
      st2.tryCount ≤ tryCountCap ∧
        st2.disabledList.length + zoneCount env st2.world =
          st.disabledList.length + zoneCount env st.world := by
    intro st st2 b hlt hb
    obtain ⟨-, hcase⟩ := moveBody_spec env recMove hrec this s d st b st2 hb
    rcases hcase with ⟨htc, hdl, hk⟩ | ⟨-, htc, h, k, hdl, hkh, hzone, hk⟩
    · rw [htc, hdl, zoneCount_of_kinds_eq env hk]
      exact ⟨hlt, rfl⟩
    · have hz1 := zoneCount_disable env st.world st2.world h k hkh hzone hk
      rw [htc, hdl, List.length_append, List.length_singleton]
      exact ⟨hlt.le, by omega⟩
  induction fuel with
  | zero =>
    intro st st1 htc hl
    unfold moveLoop at hl
    split_ifs at hl
    cases hl
    exact ⟨htc, rfl⟩
  | succ fuel ih =>
    intro st st1 htc hl
    by_cases hc : st.moveTime > moveTimeEpsilon ∧ st.tryCount < tryCountCap
    · rw [moveLoop_step _ _ _ _ _ _ _ hc] at hl
      split at hl
      · cases hl
      · rename_i st2 hb
        obtain ⟨h1, h2⟩ := hbody st st2 true hc.2 hb
        obtain ⟨h3, h4⟩ := ih st2 st1 h1 hl
        exact ⟨h3, h4.trans h2⟩
      · rename_i st2 hb
        cases hl
        exact hbody st st1 false hc.2 hb
    · rw [moveLoop_exit _ _ _ _ _ _ _ hc] at hl
      cases hl
      exact ⟨htc, rfl⟩

/-- C6: a call of `move` on an object of a finite world returns. Its loop ends within 8 counted
iterations plus one uncounted iteration for every speed zone with enabled collision (the
iteration fuel `8 + zoneCount` suffices, the final `tryCount` is at most 8 and the zones
disabled on the way are at most `zoneCount`), and the nesting of recursive pushes is bounded in
terms of the number `n` of objects (the depth fuel `2 n + 4` suffices): the cycle guard keeps
an object of the displacer list from being pushed by a displaced object. -/
theorem move_terminates (env : Env) (moveTime : ℚ) (this : Nat) (s : StateIndex) (d : Bool)
    (l : List Nat) (w : World) (iters depth : Nat) (hthis : this < w.objs.length)
    (hiters : tryCountCap + zoneCount env w ≤ iters)
    (hdepth : 2 * w.objs.length + 3 ≤ depth) :
    ∃ st : LoopState,
      moveLoop env (fun t that l1 w1 => move env iters depth t that s true l1 w1)
        this s d iters (moveStart moveTime l w) = some st ∧
      st.tryCount ≤ tryCountCap ∧
      st.disabledList.length ≤ zoneCount env w ∧
      move env iters (depth + 1) moveTime this s d l w = some (moveFinish this s st) := by
  have hrec : ∀ t that l1 w1 w2, move env iters depth t that s true l1 w1 = some w2 →
      kinds w2 = kinds w1 :=
    fun t that l1 w1 w2 h => move_kinds env iters depth t that s true l1 w1 w2 h
  have hloop := moveLoop_isSome env
    (fun t that l1 w1 => move env iters depth t that s true l1 w1) hrec
    this s d w.objs.length (zoneCount env w) l
    (by
      intro t h lc w1 hlen1 hz1 hh hsub hg
      apply move_isSome_displaced env iters w.objs.length (zoneCount env w) hiters s depth
        t h (lc ++ [this]) w1 hlen1 hz1 hh
      cases d with
      | true =>
        have h1 := pushMeasure_lt w.objs.length this h l lc hthis hsub (hg rfl)
        have h2 := pushMeasure_le w.objs.length this l
        omega
      | false =>
        have h2 := pushMeasure_le w.objs.length h (lc ++ [this])
        omega)
    iters (moveStart moveTime l w) rfl (le_refl _) (fun x hx => hx)
    (by
      show tryCountCap - 0 + zoneCount env w ≤ iters
      omega)
  cases hst : moveLoop env (fun t that l1 w1 => move env iters depth t that s true l1 w1)
      this s d iters (moveStart moveTime l w) with
  | none =>
    rw [hst] at hloop
    cases hloop
  | some st =>
    obtain ⟨h1, h2⟩ := moveLoop_counts env _ hrec this s d iters (moveStart moveTime l w) st
      (Nat.zero_le _) hst
    refine ⟨st, rfl, h1, ?_, ?_⟩
    · have : (moveStart moveTime l w).disabledList.length +
          zoneCount env (moveStart moveTime l w).world = zoneCount env w := by
        simp [moveStart]
      omega
    · simp only [move, hst]

/-- Witness of C6: in a chain of three overlapping balls the first pushes the second, which
pushes the third; the call returns with the three balls moved apart. -/
theorem move_terminates_witness :
    (∃ st : LoopState,
      moveLoop exampleEnv
        (fun t that l1 w1 => move exampleEnv 8 9 t that StateIndex.ActualState true l1 w1)
        0 StateIndex.ActualState false 8 (moveStart 1 [] chain) = some st ∧
      st.tryCount ≤ tryCountCap ∧
      st.disabledList.length ≤ zoneCount exampleEnv chain ∧
      move exampleEnv 8 (9 + 1) 1 0 StateIndex.ActualState false [] chain =
        some (moveFinish 0 StateIndex.ActualState st)) ∧
    (move exampleEnv 8 10 1 0 StateIndex.ActualState false [] chain).map
        (fun w => w.objs.map (fun o => o.actual.pos)) =
      some [⟨1, 0⟩, ⟨1501 / 500, 0⟩, ⟨1251 / 250, 0⟩] :=
  ⟨move_terminates exampleEnv 1 0 StateIndex.ActualState false [] chain 8 9
    (by decide) (by decide) (by decide), by decide!⟩

/-! ## Frame and effect of `move` (C1, C2, C7, C8) -/

theorem moveBody_still (env : Env) (recMove : ℚ → Nat → List Nat → World → Option World)
    (this : Nat) (s : StateIndex) (st : LoopState)
    (h : ((st.world.obj this).state s).vel.len env.sqrt < velocityEpsilon) :
    moveBody env recMove this s false st =
      some (false, { st with tryCount := st.tryCount + 1 }) := by
  unfold moveBody
  simp [h]

theorem moveBody_free (env : Env) (recMove : ℚ → Nat → List Nat → World → Option World)
    (this : Nat) (s : StateIndex) (d : Bool) (st : LoopState)
    (hv : d = true ∨ ¬ ((st.world.obj this).state s).vel.len env.sqrt < velocityEpsilon)
    (hfree : (findFirstCollision env st.world this s st.moveTime Point.zero).collisionObject =
      none) :
    moveBody env recMove this s d st =
      some (false, { st with
        tryCount := st.tryCount + 1
        world := advance { st.world with
          findFirstCollisionCalls := st.world.findFirstCollisionCalls + 1 } this s
          st.moveTime }) := by
  unfold moveBody
  dsimp only
  have hcond : ¬ ((!d && decide (((st.world.obj this).state s).vel.len env.sqrt <
      velocityEpsilon)) = true) := by
    rcases hv with hv | hv
    · simp [hv]
    · simp [hv]
  rw [if_neg hcond, hfree]

/-- C1 (as stated) fails in two ways. With a time budget of half a microsecond, below
`moveTimeEpsilon`, the sweep reports no object and `move` returns, but the position has not
advanced by `velocity * T`: the world is unchanged. And with a budget of one second but a speed
of a millionth, below `velocityEpsilon`, for an entity that is not being displaced, the sweep
reports no object and `move` again returns the world unchanged. -/
theorem move_free_advance_counterexample :
    ((findFirstCollision emptyEnv oneBall 0 StateIndex.ActualState (1 / 2000000)
        Point.zero).collisionObject = none ∧
      move emptyEnv 8 6 (1 / 2000000) 0 StateIndex.ActualState false [] oneBall = some oneBall ∧
      ((oneBall.obj 0).state StateIndex.ActualState).pos ≠
        ((oneBall.obj 0).state StateIndex.ActualState).pos.add
          (((oneBall.obj 0).state StateIndex.ActualState).vel.scale (1 / 2000000))) ∧
    ((findFirstCollision emptyEnv slowBall 0 StateIndex.ActualState 1
        Point.zero).collisionObject = none ∧
      move emptyEnv 8 6 1 0 StateIndex.ActualState false [] slowBall = some slowBall ∧
      ((slowBall.obj 0).state StateIndex.ActualState).pos ≠
        ((slowBall.obj 0).state StateIndex.ActualState).pos.add
          (((slowBall.obj 0).state StateIndex.ActualState).vel.scale 1)) := by
  refine ⟨⟨by decide!, by decide!, by decide!⟩, ⟨by decide!, by decide!, by decide!⟩⟩

/-- C1 (amended): if the time budget `T` exceeds `moveTimeEpsilon`, the entity is being
displaced or its speed is not below `velocityEpsilon`, and the sweep for the budget `T`
reports no object, then `move(T)` returns after one call of `findFirstCollision` with the
slot's position advanced by exactly `velocity * T` and its velocity unchanged. -/
theorem move_free_advance (env : Env) (iters depth : Nat) (moveTime : ℚ) (this : Nat)
    (s : StateIndex) (d : Bool) (l : List Nat) (w : World) (hthis : this < w.objs.length)
    (hT : moveTime > moveTimeEpsilon)
    (hv : d = true ∨ ¬ ((w.obj this).state s).vel.len env.sqrt < velocityEpsilon)
    (hfree : (findFirstCollision env w this s moveTime Point.zero).collisionObject = none) :
    ∃ w1, move env (iters + 1) (depth + 1) moveTime this s d l w = some w1 ∧
      ((w1.obj this).state s).pos =
        ((w.obj this).state s).pos.add (((w.obj this).state s).vel.scale moveTime) ∧
      ((w1.obj this).state s).vel = ((w.obj this).state s).vel ∧
      w1.findFirstCollisionCalls = w.findFirstCollisionCalls + 1 := by
  refine ⟨advance { w with findFirstCollisionCalls := w.findFirstCollisionCalls + 1 } this s
    moveTime, ?_, ?_, ?_, rfl⟩
  · simp only [move]
    rw [moveLoop_step _ _ _ _ _ _ _ (by simp [moveStart, hT, tryCountCap]),
      moveBody_free _ _ _ _ _ _ (by simpa [moveStart] using hv)
        (by simpa [moveStart] using hfree)]
    simp [moveFinish, moveStart, enableDisabled, tryCountCap]
  · have hlen : this < ({ w with findFirstCollisionCalls := w.findFirstCollisionCalls + 1 } :
        World).objs.length := hthis
    rw [advance, World.obj_modify_self _ _ _ hlen, GameObject.state_setPos_pos]
    rfl
  · have hlen : this < ({ w with findFirstCollisionCalls := w.findFirstCollisionCalls + 1 } :
        World).objs.length := hthis
    rw [advance, World.obj_modify_self _ _ _ hlen, GameObject.state_setPos_vel]
    rfl

/-- Witness of C1 (amended): a single ball at `(3,4)` with velocity `(-10,0)` and a budget of
one second ends at `(-7,4)`. -/
theorem move_free_advance_witness :
    ∃ w1, move emptyEnv (7 + 1) (5 + 1) 1 0 StateIndex.ActualState false [] oneBall = some w1 ∧
      ((w1.obj 0).state StateIndex.ActualState).pos =
        ((oneBall.obj 0).state StateIndex.ActualState).pos.add
          (((oneBall.obj 0).state StateIndex.ActualState).vel.scale 1) ∧
      ((w1.obj 0).state StateIndex.ActualState).vel =
        ((oneBall.obj 0).state StateIndex.ActualState).vel ∧
      w1.findFirstCollisionCalls = oneBall.findFirstCollisionCalls + 1 :=
  move_free_advance emptyEnv 7 5 1 0 StateIndex.ActualState false [] oneBall
    (by decide) (by decide!) (Or.inr (by decide!)) (by decide!)

/-- C2: for an entity with zero velocity in the slot that is not being displaced, `move` returns
the world it was given, for every time budget: position and velocity of the slot are
unchanged, no other object is modified, and `findFirstCollision` has not been called (its
call counter is unchanged). The square root of zero is assumed to be zero. -/
theorem move_zero_velocity (env : Env) (iters depth : Nat) (moveTime : ℚ) (this : Nat)
    (s : StateIndex) (l : List Nat) (w : World)
    (hvel : ((w.obj this).state s).vel = Point.zero) (hs : env.sqrt 0 = 0) :
    move env (iters + 1) (depth + 1) moveTime this s false l w = some w := by
  have hlen : ((w.obj this).state s).vel.len env.sqrt < velocityEpsilon := by
    rw [hvel]
    simp only [Point.len, Point.lenSquared, Point.zero, mul_zero, add_zero, hs]
    norm_num [velocityEpsilon]
  simp only [move]
  by_cases hT : moveTime > moveTimeEpsilon
  · rw [moveLoop_step _ _ _ _ _ _ _ (by simp [moveStart, hT, tryCountCap]),
      moveBody_still _ _ _ _ _ (by simpa [moveStart] using hlen)]
    simp [moveFinish, moveStart, enableDisabled, tryCountCap]
  · rw [moveLoop_exit _ _ _ _ _ _ _ (by simp [moveStart]; intro h; exact absurd h hT)]
    simp [moveFinish, moveStart, enableDisabled, tryCountCap]

/-- Witness of C2: a resting ball next to a speed zone is left alone by `move`. -/
theorem move_zero_velocity_witness :
    move exampleEnv (7 + 1) (6 + 1) 1 0 StateIndex.ActualState false [] restingBallAndZone =
      some restingBallAndZone :=
  move_zero_velocity exampleEnv 7 6 1 0 StateIndex.ActualState [] restingBallAndZone
    (by decide!) (by decide!)

/-- C7: when the loop of a call of `move` ends with `tryCount` at the cap of 8, the call returns
with the velocity of the slot equal to `(0, 0)`. -/
theorem move_cap_zeroes_velocity (env : Env) (iters depth : Nat) (moveTime : ℚ) (this : Nat)
    (s : StateIndex) (d : Bool) (l : List Nat) (w : World) (st : LoopState)
    (hthis : this < w.objs.length)
    (hloop : moveLoop env (fun t that l1 w1 => move env iters depth t that s true l1 w1)
      this s d iters (moveStart moveTime l w) = some st)
    (hcap : st.tryCount = tryCountCap) :
    ∃ w1, move env iters (depth + 1) moveTime this s d l w = some w1 ∧
      ((w1.obj this).state s).vel = Point.zero := by
  refine ⟨moveFinish this s st, by simp only [move, hloop], ?_⟩
  have hinv := LoopInv_loop env _
    (fun t that l1 w2 w3 h3 => move_kinds env iters depth t that s true l1 w2 w3 h3)
    this s d (kinds w) iters _ st (LoopInv_start moveTime l w) hloop
  have hk := kinds_moveFinish this s (kinds w) st hinv
  have hlen := length_eq_of_kinds_eq hk
  unfold moveFinish at hlen ⊢
  dsimp only at hlen ⊢
  rw [if_pos hcap] at hlen ⊢
  rw [World.length_modify] at hlen
  rw [World.obj_modify_self _ _ _ (by rw [hlen]; exact hthis), GameObject.state_setVel_vel]

/-- Witness of C7: a ball that keeps hitting an obstacle after half of the remaining path uses
all 8 tries of one call and is stopped. -/
theorem move_cap_zeroes_velocity_witness :
    ∃ w1, move exampleEnv 8 (5 + 1) 1 0 StateIndex.ActualState false [] ballAndOther = some w1 ∧
      ((w1.obj 0).state StateIndex.ActualState).vel = Point.zero :=
  move_cap_zeroes_velocity exampleEnv 8 5 1 0 StateIndex.ActualState false [] ballAndOther
    { world :=
        { objs := [(ball ⟨0, 0⟩ ⟨1, 0⟩).setPos StateIndex.ActualState ⟨255 / 256, 0⟩,
            obstacle 3]
          findFirstCollisionCalls := 8 }
      moveTime := 1 / 256
      tryCount := 8
      disabledList := []
      displacerList := [] }
    (by decide) (by decide!) (by decide)

/-- C8: however the loop of a call of `move` ended, the call then returns a world in which
every object disabled during the call has its collision enabled, and every object has the
collision flag it had when the call was entered; the objects are the same in number. -/
theorem move_restores_collision (env : Env) (iters depth : Nat) (moveTime : ℚ) (this : Nat)
    (s : StateIndex) (d : Bool) (l : List Nat) (w : World) (st : LoopState)
    (hloop : moveLoop env (fun t that l1 w1 => move env iters depth t that s true l1 w1)
      this s d iters (moveStart moveTime l w) = some st) :
    move env iters (depth + 1) moveTime this s d l w = some (moveFinish this s st) ∧
    (moveFinish this s st).objs.length = w.objs.length ∧
    (∀ j ∈ st.disabledList, ((moveFinish this s st).obj j).collisionEnabled = true) ∧
    (∀ j, ((moveFinish this s st).obj j).collisionEnabled = (w.obj j).collisionEnabled) := by
  have hinv := LoopInv_loop env _
    (fun t that l1 w2 w3 h3 => move_kinds env iters depth t that s true l1 w2 w3 h3)
    this s d (kinds w) iters _ st (LoopInv_start moveTime l w) hloop
  have hk := kinds_moveFinish this s (kinds w) st hinv
  have hall : ∀ j, ((moveFinish this s st).obj j).collisionEnabled =
      (w.obj j).collisionEnabled := by
    intro j
    rw [collisionEnabled_obj, collisionEnabled_obj, hk]
  refine ⟨by simp only [move, hloop], length_eq_of_kinds_eq hk, ?_, hall⟩
  intro j hj
  obtain ⟨k, hk0, hen⟩ := hinv.2 j hj
  rw [hall j, collisionEnabled_obj, hk0]
  simpa using hen

/-- Witness of C8: a ball flies through a speed zone; the zone is disabled when the loop ends
and enabled again in the world that `move` returns. -/
theorem move_restores_collision_witness :
    (moveLoop exampleEnv
        (fun t that l1 w1 => move exampleEnv 9 5 t that StateIndex.ActualState true l1 w1)
        0 StateIndex.ActualState false 9 (moveStart 1 [] ballAndZone)).map
        (fun st => (st.disabledList, (st.world.obj 1).collisionEnabled)) =
      some ([1], false) ∧
    (move exampleEnv 9 (5 + 1) 1 0 StateIndex.ActualState false [] ballAndZone).map
        (fun w => (w.obj 1).collisionEnabled) = some true :=
  ⟨by decide!, by
    have h := move_restores_collision exampleEnv 9 5 1 0 StateIndex.ActualState false []
      ballAndZone
      { world :=
          { objs := [((ball ⟨0, 0⟩ ⟨1, 0⟩).setState StateIndex.ActualState
                ⟨⟨3, 0⟩, ⟨5, 0⟩, 0⟩),
              (obstacle 2).disableCollision]
            findFirstCollisionCalls := 2 }
        moveTime := 1 / 2
        tryCount := 1
        disabledList := [1]
        displacerList := [] }
      (by decide!)
    rw [h.1]
    exact congrArg some (h.2.2.1 1 (by decide))⟩

/-! ## Interpolation (C11, C12, C19) -/

theorem interpRvel_eq_max (env : Env) (o : GameObject) :
    interpRvel env o =
      max (max ((interpDirection env o).dot o.render.vel)
        ((interpDirection env o).dot o.actual.vel)) 0 := by
  unfold interpRvel
  dsimp only
  by_cases h1 : (interpDirection env o).dot o.render.vel <
      (interpDirection env o).dot o.actual.vel
  · rw [if_pos h1, max_eq_right h1.le]
    by_cases h2 : (interpDirection env o).dot o.actual.vel < 0
    · rw [if_pos h2, max_eq_right h2.le]
    · rw [if_neg h2, max_eq_left (not_lt.mp h2)]
  · rw [if_neg h1, max_eq_left (not_lt.mp h1)]
    by_cases h2 : (interpDirection env o).dot o.render.vel < 0
    · rw [if_pos h2, max_eq_right h2.le]
    · rw [if_neg h2, max_eq_left (not_lt.mp h2)]

theorem interpMaxVel_eq_max (env : Env) (o : GameObject) :
    interpMaxVel env o = max env.InterpMaxVelocity (o.actual.vel.len env.sqrt) := by
  unfold interpMaxVel
  dsimp only
  by_cases h : env.InterpMaxVelocity < o.actual.vel.len env.sqrt
  · rw [if_pos h, max_eq_right h.le]
  · rw [if_neg h, max_eq_left (not_lt.mp h)]

theorem interpRequestVel_le_max (env : Env) (o : GameObject) :
    interpRequestVel env o ≤ interpMaxVel env o := by
  unfold interpRequestVel
  dsimp only
  split_ifs with h
  · exact le_refl _
  · exact not_lt.mp h

/-- The acceleration applied over the step: at most `InterpAcceleration * time`, and it does
not take the speed beyond the requested velocity. -/
theorem interpAccel_bounds (env : Env) (o : GameObject) (ht : 0 < interpTime o) :
    interpAccel env o * interpTime o ≤ env.InterpAcceleration * interpTime o ∧
      interpRvel env o + interpAccel env o * interpTime o ≤ interpRequestVel env o := by
  have hdiv : (interpRequestVel env o - interpRvel env o) / interpTime o * interpTime o =
      interpRequestVel env o - interpRvel env o := by
    field_simp
  unfold interpAccel
  dsimp only
  split_ifs with h
  · refine ⟨le_refl _, ?_⟩
    have h1 : env.InterpAcceleration * interpTime o ≤
        (interpRequestVel env o - interpRvel env o) / interpTime o * interpTime o :=
      mul_le_mul_of_nonneg_right h.le ht.le
    linarith
  · refine ⟨mul_le_mul_of_nonneg_right (not_lt.mp h) ht.le, ?_⟩
    rw [hdiv]
    linarith

/-- C11: when `updateInterpolation` takes the easing step (the entity is still interpolating
after the call) with a positive elapsed time, the new render velocity is the unit gap direction
times a speed that is not negative, is at most `max(InterpMaxVelocity, |Actual.vel|)`, and
exceeds the starting closing speed `rvel` (the larger of the render and actual velocity
components along the gap, clamped at 0) by at most `InterpAcceleration * t`. Assumed:
`InterpAcceleration` is not negative and the square root is never negative. -/
theorem updateInterpolation_easing_speed (env : Env) (o : GameObject)
    (ht : 0 < o.mCurrentMoveTime) (hIA : 0 ≤ env.InterpAcceleration)
    (hnn : ∀ q, 0 ≤ env.sqrt q)
    (hstill : (updateInterpolation env o).mInterpolating = true) :
    ∃ speed : ℚ,
      (updateInterpolation env o).render.vel =
        ((o.actual.pos.sub o.render.pos).normalize env.sqrt).scale speed ∧
      0 ≤ speed ∧
      speed ≤ max env.InterpMaxVelocity (o.actual.vel.len env.sqrt) ∧
      speed - max (max (((o.actual.pos.sub o.render.pos).normalize env.sqrt).dot o.render.vel)
          (((o.actual.pos.sub o.render.pos).normalize env.sqrt).dot o.actual.vel)) 0 ≤
        env.InterpAcceleration * ((o.mCurrentMoveTime : ℚ) * (1 / 1000)) := by
  have htime : 0 < interpTime o := by
    unfold interpTime
    have : (0 : ℚ) < (o.mCurrentMoveTime : ℚ) := by exact_mod_cast ht
    positivity
  rcases updateInterpolation_cases env o with ⟨-, hi, -⟩ | ⟨-, -, -, -, hr, -, -⟩
  · rw [hi] at hstill
    exact absurd hstill (by decide)
  · obtain ⟨ha1, ha2⟩ := interpAccel_bounds env o htime
    have hb := interp_step_bounds env o hnn hIA htime
    refine ⟨interpRvel env o + interpAccel env o * interpTime o, ?_, hb.1, ?_, ?_⟩
    · rw [hr]
      rfl
    · rw [← interpMaxVel_eq_max]
      exact le_trans ha2 (interpRequestVel_le_max env o)
    · have e := interpRvel_eq_max env o
      unfold interpDirection interpDeltaP at e
      rw [← e]
      have : interpTime o = (o.mCurrentMoveTime : ℚ) * (1 / 1000) := rfl
      rw [← this]
      linarith

/-- Witness of C11: the entity rendered at the origin eases towards `(3,4)` for one
millisecond; from rest its speed becomes `InterpAcceleration * t = 1.8` along `(3/5, 4/5)`. -/
theorem updateInterpolation_easing_speed_witness :
    (updateInterpolation emptyEnv easingBall).render.vel = ⟨27 / 25, 36 / 25⟩ ∧
    ∃ speed : ℚ,
      (updateInterpolation emptyEnv easingBall).render.vel =
        ((easingBall.actual.pos.sub easingBall.render.pos).normalize emptyEnv.sqrt).scale
          speed ∧
      0 ≤ speed ∧
      speed ≤ max emptyEnv.InterpMaxVelocity (easingBall.actual.vel.len emptyEnv.sqrt) ∧
      speed - max (max
          (((easingBall.actual.pos.sub easingBall.render.pos).normalize emptyEnv.sqrt).dot
            easingBall.render.vel)
          (((easingBall.actual.pos.sub easingBall.render.pos).normalize emptyEnv.sqrt).dot
            easingBall.actual.vel)) 0 ≤
        emptyEnv.InterpAcceleration * ((easingBall.mCurrentMoveTime : ℚ) * (1 / 1000)) :=
  ⟨by decide!, updateInterpolation_easing_speed emptyEnv easingBall (by decide) (by decide!)
    exampleSqrt_nonneg (by decide!)⟩

/-- C12 (as stated) fails: the entity is interpolating with a gap of 5, one second of elapsed
time lets it reach the target without the velocity clamp or the acceleration clamp, and the
converging call itself already snaps the render state to the actual state and clears the
flag. -/
theorem updateInterpolation_converged_counterexample :
    convergingBall.mInterpolating = true ∧
    0 < convergingBall.mCurrentMoveTime ∧
    interpDistance emptyEnv convergingBall = 5 ∧
    ¬ (interpDistance emptyEnv convergingBall / interpTime convergingBall >
      interpMaxVel emptyEnv convergingBall) ∧
    ¬ ((interpRequestVel emptyEnv convergingBall - interpRvel emptyEnv convergingBall) /
      interpTime convergingBall > emptyEnv.InterpAcceleration) ∧
    convergingBall.render ≠ convergingBall.actual ∧
    (updateInterpolation emptyEnv convergingBall).render = convergingBall.actual ∧
    (updateInterpolation emptyEnv convergingBall).mInterpolating = false := by
  refine ⟨by decide, by decide, by decide!, by decide!, by decide!, by decide!, by decide!,
    by decide!⟩

/-- C12 (amended): with a positive elapsed time, if neither the velocity clamp nor the
acceleration clamp applies (in particular while interpolating with a non-zero gap),
`updateInterpolation` snaps the render state to exact equality with the actual state and clears
the interpolating flag in that same call; the following call finds the entity not interpolating
and leaves the render state equal to the actual state. The elapsed time is positive because
with `time = 0` the code divides by zero, where the two comparisons of the code are not those
of the rational model. -/
theorem updateInterpolation_converged (env : Env) (o : GameObject)
    (ht : 0 < o.mCurrentMoveTime)
    (hv : ¬ interpDistance env o / interpTime o > interpMaxVel env o)
    (ha : ¬ (interpRequestVel env o - interpRvel env o) / interpTime o >
      env.InterpAcceleration) :
    (updateInterpolation env o).render = o.actual ∧
    (updateInterpolation env o).actual = o.actual ∧
    (updateInterpolation env o).mInterpolating = false ∧
    (updateInterpolation env (updateInterpolation env o)).render = o.actual ∧
    (updateInterpolation env (updateInterpolation env o)).mInterpolating = false := by
  have _htime : 0 < interpTime o := by
    unfold interpTime
    have : (0 : ℚ) < (o.mCurrentMoveTime : ℚ) := by exact_mod_cast ht
    positivity
  have hhit : interpHit env o = true := by
    unfold interpHit
    dsimp only
    rw [if_neg ha, if_neg hv]
  have first : (updateInterpolation env o).render = o.actual ∧
      (updateInterpolation env o).mInterpolating = false ∧
      (updateInterpolation env o).actual = o.actual := by
    rcases updateInterpolation_cases env o with h | ⟨-, -, -, hno, -⟩
    · exact h
    · rw [hhit] at hno
      exact absurd hno (by decide)
  obtain ⟨hr, hi, hact⟩ := first
  refine ⟨hr, hact, hi, ?_, ?_⟩
  · rcases updateInterpolation_cases env (updateInterpolation env o) with
      ⟨hr2, -, -⟩ | ⟨hi2, -⟩
    · rw [hr2, hact]
    · rw [hi] at hi2
      exact absurd hi2 (by decide)
  · rcases updateInterpolation_cases env (updateInterpolation env o) with
      ⟨-, hi3, -⟩ | ⟨hi2, -⟩
    · exact hi3
    · rw [hi] at hi2
      exact absurd hi2 (by decide)

/-- Witness of C12 (amended): with one second of elapsed time the entity rendered at the
origin arrives at its actual state `(3,4)` in the call itself. -/
theorem updateInterpolation_converged_witness :
    (updateInterpolation emptyEnv convergingBall).render = convergingBall.actual ∧
    (updateInterpolation emptyEnv convergingBall).actual = convergingBall.actual ∧
    (updateInterpolation emptyEnv convergingBall).mInterpolating = false ∧
    (updateInterpolation emptyEnv (updateInterpolation emptyEnv convergingBall)).render =
      convergingBall.actual ∧
    (updateInterpolation emptyEnv (updateInterpolation emptyEnv convergingBall)).mInterpolating =
      false :=
  updateInterpolation_converged emptyEnv convergingBall (by decide) (by decide!) (by decide!)

/-- C19: after every call of `updateInterpolation`, whichever branch is taken, the render
heading equals the actual heading, and the actual heading is unchanged. -/
theorem updateInterpolation_angle (env : Env) (o : GameObject) :
    (updateInterpolation env o).render.angle = o.actual.angle ∧
    (updateInterpolation env o).actual.angle = o.actual.angle := by
  rcases updateInterpolation_cases env o with ⟨hr, -, ha⟩ | ⟨-, -, -, -, hr, -, ha⟩
  · rw [hr, ha]
    exact ⟨rfl, rfl⟩
  · rw [hr, ha]
    exact ⟨rfl, rfl⟩

/-! ## Momentum in the entity-vs-entity response (C18) -/

/-- The two velocities after `computeCollisionResponseMoveObject` on two different objects:
each has moved along the collision vector, by amounts that cancel. -/
theorem computeCollisionResponseMoveObject_vels (env : Env) (w : World) (this hit : Nat)
    (s : StateIndex) (hthis : this < w.objs.length) (hhit : hit < w.objs.length)
    (hne : this ≠ hit) :
    ∃ (cv : Point) (k : ℚ),
      cv = (((w.obj hit).state s).pos.sub ((w.obj this).state s).pos).normalize env.sqrt ∧
      (((computeCollisionResponseMoveObject env w this s hit).obj this).state s).vel =
        ((w.obj this).state s).vel.add (cv.scale k) ∧
      (((computeCollisionResponseMoveObject env w this s hit).obj hit).state s).vel =
        ((w.obj hit).state s).vel.add (cv.scale (-k)) := by
  have hne2 : hit ≠ this := fun h => hne h.symm
  refine ⟨(((w.obj hit).state s).pos.sub ((w.obj this).state s).pos).normalize env.sqrt,
    ((w.obj hit).state s).vel.dot
        ((((w.obj hit).state s).pos.sub ((w.obj this).state s).pos).normalize env.sqrt) -
      (collisionElasticity *
        (((w.obj this).state s).vel.dot
            ((((w.obj hit).state s).pos.sub ((w.obj this).state s).pos).normalize env.sqrt) -
          ((w.obj hit).state s).vel.dot
            ((((w.obj hit).state s).pos.sub ((w.obj this).state s).pos).normalize env.sqrt)) +
        ((w.obj this).state s).vel.dot
          ((((w.obj hit).state s).pos.sub ((w.obj this).state s).pos).normalize env.sqrt) +
        ((w.obj hit).state s).vel.dot
          ((((w.obj hit).state s).pos.sub ((w.obj this).state s).pos).normalize env.sqrt)) / 2,
    rfl, ?_, ?_⟩
  · simp only [computeCollisionResponseMoveObject, World.obj_modify, World.length_modify,
      hne, hne2, hthis, false_and, if_false, true_and, if_true, and_self,
      GameObject.state_setVel_vel]
    congr 2
    ring
  · simp only [computeCollisionResponseMoveObject, World.obj_modify, World.length_modify,
      hne, hne2, hhit, false_and, if_false, true_and, if_true, and_self,
      GameObject.state_setVel_vel, collisionElasticity]
    congr 2
    ring

/-- C18: for two different entities, the vector sum of the two velocities after
`computeCollisionResponseMoveObject` equals the sum before; in particular the sum of the
components along the contact axis is unchanged, and the components of each velocity
perpendicular to the contact axis are unchanged. -/
theorem computeCollisionResponseMoveObject_momentum (env : Env) (w : World) (this hit : Nat)
    (s : StateIndex) (hthis : this < w.objs.length) (hhit : hit < w.objs.length)
    (hne : this ≠ hit) :
    let cv := (((w.obj hit).state s).pos.sub ((w.obj this).state s).pos).normalize env.sqrt
    let w1 := computeCollisionResponseMoveObject env w this s hit
    ((w1.obj this).state s).vel.add ((w1.obj hit).state s).vel =
      ((w.obj this).state s).vel.add ((w.obj hit).state s).vel ∧
    ((w1.obj this).state s).vel.dot cv + ((w1.obj hit).state s).vel.dot cv =
      ((w.obj this).state s).vel.dot cv + ((w.obj hit).state s).vel.dot cv ∧
    (∀ t : Point, t.dot cv = 0 →
      ((w1.obj this).state s).vel.dot t = ((w.obj this).state s).vel.dot t ∧
      ((w1.obj hit).state s).vel.dot t = ((w.obj hit).state s).vel.dot t) := by
  obtain ⟨cv, k, hcv, e1, e2⟩ :=
    computeCollisionResponseMoveObject_vels env w this hit s hthis hhit hne
  dsimp only
  rw [← hcv, e1, e2]
  refine ⟨?_, ?_, ?_⟩
  · simp only [Point.add, Point.scale, Point.mk.injEq]
    constructor <;> ring
  · simp only [Point.add, Point.scale, Point.dot]
    ring
  · intro t ht
    have ht2 : t.x * cv.x + t.y * cv.y = 0 := ht
    simp only [Point.add, Point.scale, Point.dot]
    constructor
    · linear_combination k * ht2
    · linear_combination (-k) * ht2

/-- Witness of C18: the two balls with velocities `(10,3)` and `(-10,1)` have the velocity sum
`(0,4)` before and after the response. -/
theorem computeCollisionResponseMoveObject_momentum_witness :
    (((computeCollisionResponseMoveObject emptyEnv twoBalls 0 StateIndex.ActualState 1).obj
        0).state StateIndex.ActualState).vel.add
      (((computeCollisionResponseMoveObject emptyEnv twoBalls 0 StateIndex.ActualState 1).obj
        1).state StateIndex.ActualState).vel =
      ((twoBalls.obj 0).state StateIndex.ActualState).vel.add
        ((twoBalls.obj 1).state StateIndex.ActualState).vel :=
  (computeCollisionResponseMoveObject_momentum emptyEnv twoBalls 0 1 StateIndex.ActualState
    (by decide) (by decide) (by decide)).1

/-! ## Identifiers of items (C13, C14) -/

/-- The identifier that arrives: what the wire makes of the identifier of the sender. -/
theorem Item.unpackUpdate_packUpdate_mItemId (wire : Wire) (o client : GameObject) :
    (Item.unpackUpdate client (Item.packUpdate wire o true [])).1.mItemId =
      wire.rangedU32 o.mItemId 0 U16_MAX := by
  rfl

/-- An identifier of the range `[0, 65535]` survives the update. -/
theorem Item.mItemId_roundtrip_in_range (wire : Wire) (hw : wire.Ranged) (o client : GameObject)
    (hid : o.mItemId ≤ U16_MAX) :
    (Item.unpackUpdate client (Item.packUpdate wire o true [])).1.mItemId = o.mItemId := by
  rw [Item.unpackUpdate_packUpdate_mItemId]
  exact (hw o.mItemId 0 U16_MAX (Nat.zero_le _)).2 (Nat.zero_le _) hid

/-- An identifier above 65535 does not survive the update, whatever the encoding of a ranged
integer does with it: what is read lies in the range. -/
theorem Item.mItemId_roundtrip_above_range (wire : Wire) (hw : wire.Ranged)
    (o client : GameObject) (hid : U16_MAX < o.mItemId) :
    (Item.unpackUpdate client (Item.packUpdate wire o true [])).1.mItemId ≠ o.mItemId := by
  rw [Item.unpackUpdate_packUpdate_mItemId]
  have := (hw o.mItemId 0 U16_MAX (Nat.zero_le _)).1.2
  omega

theorem exampleWire_ranged : exampleWire.Ranged := by
  intro v lo hi hle
  simp only [exampleWire]
  have hpos : 0 < hi - lo + 1 := Nat.succ_pos _
  have hmod := Nat.mod_lt (v - lo) hpos
  refine ⟨⟨Nat.le_add_right _ _, by omega⟩, ?_⟩
  intro h1 h2
  rw [Nat.mod_eq_of_lt (by omega)]
  omega

/-- The quadratic of `findFirstCollision` is the squared distance of the two centres after the
mover has flown for the time `t`, minus the squared sum of the radii. -/
theorem circle_quadratic (p v : Point) (R t : ℚ) :
    v.dot v * t * t + 2 * p.dot v * t + (p.dot p - R * R) =
      (p.add (v.scale t)).lenSquared - R * R := by
  simp only [Point.dot, Point.add, Point.scale, Point.lenSquared]
  ring

/-- The scan of one circular candidate that does not overlap the mover. -/
theorem findFirstCollisionScan_circle (env : Env) (objs : List GameObject) (me : GameObject)
    (s : StateIndex) (i : Nat) (other : GameObject) (sw : Sweep)
    (hobj : objs[i]? = some other) (hen : other.collisionEnabled = true)
    (hpoly : env.getCollisionPoly other = none) (hmo : other.isMoveObject = true)
    (hc : env.collide me other = true ∧ env.collide other me = true)
    (hfar : ¬ ((me.state s).pos.sub (other.state s).pos).len env.sqrt ≤
      me.mRadius + other.mRadius) :
    findFirstCollisionScan env objs me s [i] sw =
      if (me.state s).vel.dot ((me.state s).pos.sub (other.state s).pos) < 0 then
        match env.findLowestRootInInterval ((me.state s).vel.dot (me.state s).vel)
            (2 * ((me.state s).pos.sub (other.state s).pos).dot (me.state s).vel)
            (((me.state s).pos.sub (other.state s).pos).dot
                ((me.state s).pos.sub (other.state s).pos) -
              (me.mRadius + other.mRadius) * (me.mRadius + other.mRadius))
            sw.collisionTime with
        | some t =>
          { sw with collisionTime := t, collisionObject := some i,
                    delta := (me.state s).vel.scale t }
        | none => sw
      else sw := by
  unfold findFirstCollisionScan
  simp only [hobj, hen, hpoly, hmo, hc.1, hc.2, hfar, Bool.not_true, Bool.false_eq_true,
    if_false, if_true, Bool.and_self]
  split_ifs with hv
  · split <;> simp [findFirstCollisionScan]
  · simp [findFirstCollisionScan]

/-- C15 (as stated) fails: two balls fly to the right with the same velocity, five units apart.
Their relative velocity is zero, so the quadratic of the claim has no root at all (the squared
distance stays 25, never 4); but `findFirstCollision` solves the quadratic of the mover's own
velocity and reports the ball in front as hit after `t = 3`, the smaller root of
`t^2 - 10 t + 21 = 0` in `[0, 4]`. -/
theorem findFirstCollision_circle_counterexample :
    (findFirstCollision exampleEnv convoy 0 StateIndex.ActualState 4
      Point.zero).collisionObject = some 1 ∧
    (findFirstCollision exampleEnv convoy 0 StateIndex.ActualState 4
      Point.zero).collisionTime = 3 ∧
    LowestRootAt exampleEnv.findLowestRootInInterval 1 (-10) 21 4 ∧
    (∀ t : ℚ,
      ((((convoy.obj 0).state StateIndex.ActualState).pos.sub
          ((convoy.obj 1).state StateIndex.ActualState).pos).add
        ((((convoy.obj 0).state StateIndex.ActualState).vel.sub
          ((convoy.obj 1).state StateIndex.ActualState).vel).scale t)).lenSquared ≠
      ((convoy.obj 0).mRadius + (convoy.obj 1).mRadius) *
        ((convoy.obj 0).mRadius + (convoy.obj 1).mRadius)) := by
  refine ⟨by decide!, by decide!, ?_, ?_⟩
  · have h : exampleEnv.findLowestRootInInterval 1 (-10) 21 4 = some 3 := by decide!
    simp only [LowestRootAt, h]
    refine ⟨⟨by norm_num, by norm_num, by norm_num⟩, ?_⟩
    intro t1 _ h1 h2
    by_contra hlt
    have h3 : t1 < 3 := not_le.mp hlt
    nlinarith
  · intro t
    have hp : ((convoy.obj 0).state StateIndex.ActualState).pos.sub
        ((convoy.obj 1).state StateIndex.ActualState).pos = ⟨-5, 0⟩ := by decide!
    have hv : ((convoy.obj 0).state StateIndex.ActualState).vel.sub
        ((convoy.obj 1).state StateIndex.ActualState).vel = ⟨0, 0⟩ := by decide!
    have hr : (convoy.obj 0).mRadius + (convoy.obj 1).mRadius = 2 := by decide!
    rw [hp, hv, hr]
    simp only [Point.add, Point.scale, Point.lenSquared]
    norm_num

/-- C15 (amended): for a circular candidate (a `MoveObject` without polygon, collision
enabled, accepted by both `collide` hooks) that does not overlap the mover, the scan of
`findFirstCollision` uses the quadratic `|p + v t|^2 = R^2` built from the sum `R` of the two
radii, the relative position `p` and the mover's own velocity `v` (the candidate is taken as
standing still): the candidate is reported with the smallest root in `[0, collisionTime]` as
time of impact, and when there is no such root the candidate yields no collision. Assumed:
the answer of `FindLowestRootInInterval` for this quadratic is as the spec says, and the square
root is not negative and exact at the squared distance of the centres. -/
theorem findFirstCollision_circle_time (env : Env) (objs : List GameObject) (me : GameObject)
    (s : StateIndex) (i : Nat) (other : GameObject) (sw : Sweep) (p v : Point) (R : ℚ)
    (hp : p = (me.state s).pos.sub (other.state s).pos) (hv : v = (me.state s).vel)
    (hRdef : R = me.mRadius + other.mRadius)
    (hobj : objs[i]? = some other) (hen : other.collisionEnabled = true)
    (hpoly : env.getCollisionPoly other = none) (hmo : other.isMoveObject = true)
    (hc : env.collide me other = true ∧ env.collide other me = true)
    (hR : 0 ≤ R) (hfar : R * R < p.lenSquared)
    (hsq : 0 ≤ env.sqrt p.lenSquared ∧ env.sqrt p.lenSquared * env.sqrt p.lenSquared =
      p.lenSquared)
    (hroot : LowestRootAt env.findLowestRootInInterval (v.dot v) (2 * p.dot v)
      (p.dot p - R * R) sw.collisionTime) :
    ((findFirstCollisionScan env objs me s [i] sw).collisionObject = some i ∧
      0 ≤ (findFirstCollisionScan env objs me s [i] sw).collisionTime ∧
      (findFirstCollisionScan env objs me s [i] sw).collisionTime ≤ sw.collisionTime ∧
      (p.add (v.scale (findFirstCollisionScan env objs me s [i] sw).collisionTime)).lenSquared =
        R * R ∧
      (∀ t : ℚ, 0 ≤ t → t ≤ sw.collisionTime → (p.add (v.scale t)).lenSquared = R * R →
        (findFirstCollisionScan env objs me s [i] sw).collisionTime ≤ t)) ∨
    (findFirstCollisionScan env objs me s [i] sw = sw ∧
      ∀ t : ℚ, 0 ≤ t → t ≤ sw.collisionTime → (p.add (v.scale t)).lenSquared ≠ R * R) := by
  have hcode : ¬ ((me.state s).pos.sub (other.state s).pos).len env.sqrt ≤
      me.mRadius + other.mRadius := by
    rw [← hp, ← hRdef]
    intro hle
    have h1 : env.sqrt p.lenSquared ≤ R := hle
    have h2 : env.sqrt p.lenSquared * env.sqrt p.lenSquared ≤ R * R :=
      mul_le_mul h1 h1 hsq.1 hR
    rw [hsq.2] at h2
    linarith
  have hscan := findFirstCollisionScan_circle env objs me s i other sw hobj hen hpoly hmo hc
    hcode
  rw [← hp, ← hv, ← hRdef] at hscan
  have hquad : ∀ t : ℚ, (p.add (v.scale t)).lenSquared = R * R ↔
      v.dot v * t * t + 2 * p.dot v * t + (p.dot p - R * R) = 0 := by
    intro t
    rw [circle_quadratic]
    constructor
    · intro h; rw [h]; ring
    · intro h; linarith
  by_cases hvp : v.dot p < 0
  · rw [if_pos hvp] at hscan
    cases hf : env.findLowestRootInInterval (v.dot v) (2 * p.dot v) (p.dot p - R * R)
        sw.collisionTime with
    | none =>
      right
      rw [hf] at hscan
      simp only [LowestRootAt, hf] at hroot
      refine ⟨hscan, ?_⟩
      intro t h0 h1 h2
      exact hroot t h0 h1 ((hquad t).mp h2)
    | some t0 =>
      left
      rw [hf] at hscan
      simp only [LowestRootAt, hf] at hroot
      obtain ⟨⟨h0, h1, h2⟩, hmin⟩ := hroot
      rw [hscan]
      refine ⟨rfl, h0, h1, (hquad t0).mpr h2, ?_⟩
      intro t ht0 ht1 ht2
      exact hmin t ht0 ht1 ((hquad t).mp ht2)
  · rw [if_neg hvp] at hscan
    right
    refine ⟨hscan, ?_⟩
    intro t h0 _ h2
    have hvp2 : 0 ≤ v.x * p.x + v.y * p.y := not_lt.mp hvp
    simp only [Point.add, Point.scale, Point.lenSquared] at h2 hfar
    nlinarith [mul_nonneg h0 hvp2, mul_self_nonneg (v.x * t), mul_self_nonneg (v.y * t)]

/-- Witness of C15 (amended): the ball in front of the mover of the convoy is reported with
the time of impact 3. -/
theorem findFirstCollision_circle_time_witness :
    (findFirstCollisionScan exampleEnv convoy.objs (convoy.obj 0) StateIndex.ActualState [1]
        { collisionTime := 4, collisionPoint := Point.zero, delta := ⟨4, 0⟩,
          collisionObject := none }).collisionTime = 3 ∧
    (((findFirstCollisionScan exampleEnv convoy.objs (convoy.obj 0) StateIndex.ActualState [1]
        { collisionTime := 4, collisionPoint := Point.zero, delta := ⟨4, 0⟩,
          collisionObject := none }).collisionObject = some 1 ∧
      0 ≤ (findFirstCollisionScan exampleEnv convoy.objs (convoy.obj 0)
        StateIndex.ActualState [1]
        { collisionTime := 4, collisionPoint := Point.zero, delta := ⟨4, 0⟩,
          collisionObject := none }).collisionTime ∧
      (findFirstCollisionScan exampleEnv convoy.objs (convoy.obj 0) StateIndex.ActualState [1]
        { collisionTime := 4, collisionPoint := Point.zero, delta := ⟨4, 0⟩,
          collisionObject := none }).collisionTime ≤ 4 ∧
      ((⟨-5, 0⟩ : Point).add ((⟨1, 0⟩ : Point).scale
        (findFirstCollisionScan exampleEnv convoy.objs (convoy.obj 0)
          StateIndex.ActualState [1]
          { collisionTime := 4, collisionPoint := Point.zero, delta := ⟨4, 0⟩,
            collisionObject := none }).collisionTime)).lenSquared = 2 * 2 ∧
      (∀ t : ℚ, 0 ≤ t → t ≤ 4 →
        ((⟨-5, 0⟩ : Point).add ((⟨1, 0⟩ : Point).scale t)).lenSquared = 2 * 2 →
        (findFirstCollisionScan exampleEnv convoy.objs (convoy.obj 0)
          StateIndex.ActualState [1]
          { collisionTime := 4, collisionPoint := Point.zero, delta := ⟨4, 0⟩,
            collisionObject := none }).collisionTime ≤ t)) ∨
    (findFirstCollisionScan exampleEnv convoy.objs (convoy.obj 0) StateIndex.ActualState [1]
        { collisionTime := 4, collisionPoint := Point.zero, delta := ⟨4, 0⟩,
          collisionObject := none } =
        { collisionTime := 4, collisionPoint := Point.zero, delta := ⟨4, 0⟩,
          collisionObject := none } ∧
      ∀ t : ℚ, 0 ≤ t → t ≤ 4 →
        ((⟨-5, 0⟩ : Point).add ((⟨1, 0⟩ : Point).scale t)).lenSquared ≠ 2 * 2)) :=
  ⟨by decide!,
    findFirstCollision_circle_time exampleEnv convoy.objs (convoy.obj 0)
      StateIndex.ActualState 1 (ball ⟨5, 0⟩ ⟨1, 0⟩)
      { collisionTime := 4, collisionPoint := Point.zero, delta := ⟨4, 0⟩,
        collisionObject := none }
      ⟨-5, 0⟩ ⟨1, 0⟩ 2 (by decide!) (by decide!) (by decide!) (by decide) (by decide)
      (by decide) (by decide) ⟨by decide, by decide⟩ (by decide!) (by decide!)
      ⟨by decide!, by decide!⟩
      (by
        have h : exampleEnv.findLowestRootInInterval
            ((⟨1, 0⟩ : Point).dot ⟨1, 0⟩) (2 * (⟨-5, 0⟩ : Point).dot ⟨1, 0⟩)
            ((⟨-5, 0⟩ : Point).dot ⟨-5, 0⟩ - 2 * 2) 4 = some 3 := by decide!
        simp only [LowestRootAt, h]
        refine ⟨⟨by norm_num, by norm_num, by norm_num [Point.dot]⟩, ?_⟩
        intro t1 _ h1 h2
        by_contra hlt
        have h3 : t1 < 3 := not_le.mp hlt
        norm_num [Point.dot] at h2
        nlinarith)⟩

/-! ## The hit limit: frame facts -/

theorem mHitLimit_modify_of_eq (w : World) (i j : Nat) (f : GameObject → GameObject)
    (hf : ∀ o, (f o).mHitLimit = o.mHitLimit) :
    ((w.modify i f).obj j).mHitLimit = (w.obj j).mHitLimit := by
  rw [World.obj_modify]
  split_ifs
  · exact hf _
  · rfl

theorem mHitLimit_setState (o : GameObject) (s : StateIndex) (m : MoveState) :
    (o.setState s m).mHitLimit = o.mHitLimit := by
  cases s <;> rfl

theorem mHitLimit_advance (w : World) (this : Nat) (s : StateIndex) (t : ℚ) (j : Nat) :
    ((advance w this s t).obj j).mHitLimit = (w.obj j).mHitLimit :=
  mHitLimit_modify_of_eq _ _ _ _ (fun _ => mHitLimit_setState _ _ _)

theorem vel_advance (w : World) (this : Nat) (s : StateIndex) (t : ℚ) (j : Nat) :
    (((advance w this s t).obj j).state s).vel = ((w.obj j).state s).vel := by
  rw [advance, World.obj_modify]
  split_ifs
  · exact GameObject.state_setPos_vel _ _ _
  · rfl

/-- An iteration of the loop that passes the check of the speed and whose sweep reports a
`MoveObject` runs the `isMoveObject` block on the world advanced to the time of collision. -/
theorem moveBody_hit_moveObject (env : Env)
    (recMove : ℚ → Nat → List Nat → World → Option World)
    (this : Nat) (s : StateIndex) (d : Bool) (st : LoopState) (h : Nat)
    (hv : d = true ∨ ¬ ((st.world.obj this).state s).vel.len env.sqrt < velocityEpsilon)
    (hfound : (findFirstCollision env st.world this s st.moveTime Point.zero).collisionObject =
      some h)
    (hmo : ((advance { st.world with
        findFirstCollisionCalls := st.world.findFirstCollisionCalls + 1 } this s
        (findFirstCollision env st.world this s st.moveTime Point.zero).collisionTime).obj
          h).isMoveObject = true) :
    moveBody env recMove this s d st =
      moveHitMoveObject env recMove this s d { st with tryCount := st.tryCount + 1 }
        (advance { st.world with
          findFirstCollisionCalls := st.world.findFirstCollisionCalls + 1 } this s
          (findFirstCollision env st.world this s st.moveTime Point.zero).collisionTime)
        h (findFirstCollision env st.world this s st.moveTime Point.zero).collisionTime := by
  unfold moveBody
  dsimp only
  have hcond : ¬ ((!d && decide (((st.world.obj this).state s).vel.len env.sqrt <
      velocityEpsilon)) = true) := by
    rcases hv with hv | hv
    · simp [hv]
    · simp [hv]
  rw [if_neg hcond, hfound]
  dsimp only
  rw [if_pos hmo]

theorem moveHitMoveObject_abandon (env : Env)
    (recMove : ℚ → Nat → List Nat → World → Option World)
    (this : Nat) (s : StateIndex) (d : Bool) (st : LoopState) (w : World) (h : Nat) (ct : ℚ)
    (hguard : ¬ (d = true ∧ h ∈ st.displacerList))
    (hopen : ¬ ((((w.obj h).state s).pos.sub ((w.obj this).state s).pos).dot
      (((w.obj h).state s).vel.sub ((w.obj this).state s).vel) < 0))
    (ht : computeMinSeperationTime env w this s h
      (((w.obj this).state s).pos.add (((w.obj this).state s).vel.scale st.moveTime)) ≤ 0) :
    moveHitMoveObject env recMove this s d st w h ct = some (false, { st with world := w }) := by
  unfold moveHitMoveObject
  dsimp only
  rw [if_neg (by simpa using hguard), if_neg hopen, if_pos ht]

/-- C17: `computeMinSeperationTime` returns `-1` when the root finder finds no root. In an
iteration of the loop of `move` in which the sweep reports another `MoveObject`, the cycle
guard does not apply, the two are not closing, and `computeMinSeperationTime` returns a time
that is not positive, the loop is left at once: whatever a recursive call would do, the call
makes none; the world is the one advanced to the time of collision, in which the object hit is
as it was before the iteration, the hit limit of the mover is as before, and so are all
velocities; the displacer list is as before. -/
theorem move_abandons_push (env : Env)
    (recMove : ℚ → Nat → List Nat → World → Option World)
    (this : Nat) (s : StateIndex) (d : Bool) (st : LoopState) (h : Nat) (w : World)
    (fuel : Nat)
    (hloop : st.moveTime > moveTimeEpsilon ∧ st.tryCount < tryCountCap)
    (hv : d = true ∨ ¬ ((st.world.obj this).state s).vel.len env.sqrt < velocityEpsilon)
    (hfound : (findFirstCollision env st.world this s st.moveTime Point.zero).collisionObject =
      some h)
    (hne : h ≠ this)
    (hw : w = advance { st.world with
        findFirstCollisionCalls := st.world.findFirstCollisionCalls + 1 } this s
        (findFirstCollision env st.world this s st.moveTime Point.zero).collisionTime)
    (hmo : (w.obj h).isMoveObject = true)
    (hguard : ¬ (d = true ∧ h ∈ st.displacerList))
    (hopen : ¬ ((((w.obj h).state s).pos.sub ((w.obj this).state s).pos).dot
      (((w.obj h).state s).vel.sub ((w.obj this).state s).vel) < 0))
    (ht : computeMinSeperationTime env w this s h
      (((w.obj this).state s).pos.add (((w.obj this).state s).vel.scale st.moveTime)) ≤ 0) :
    (∀ intendedPos : Point,
      env.findLowestRootInInterval
          (((w.obj h).state s).vel.dot ((w.obj h).state s).vel)
          (2 * ((w.obj h).state s).vel.dot (((w.obj h).state s).pos.sub intendedPos))
          ((((w.obj h).state s).pos.sub intendedPos).dot
              (((w.obj h).state s).pos.sub intendedPos) -
            ((w.obj this).mRadius + (w.obj h).mRadius) *
              ((w.obj this).mRadius + (w.obj h).mRadius)) 100000 = none →
        computeMinSeperationTime env w this s h intendedPos = -1) ∧
    moveBody env recMove this s d st =
      some (false, { st with tryCount := st.tryCount + 1, world := w }) ∧
    moveLoop env recMove this s d (fuel + 1) st =
      some { st with tryCount := st.tryCount + 1, world := w } ∧
    w.obj h = st.world.obj h ∧
    (w.obj this).mHitLimit = (st.world.obj this).mHitLimit ∧
    (∀ j, ((w.obj j).state s).vel = ((st.world.obj j).state s).vel) := by
  subst hw
  have hbody := (moveBody_hit_moveObject env recMove this s d st h hv hfound hmo).trans
    (moveHitMoveObject_abandon env recMove this s d { st with tryCount := st.tryCount + 1 }
      _ h _ hguard hopen ht)
  refine ⟨?_, hbody, ?_, ?_, ?_, ?_⟩
  · intro intendedPos hnone
    unfold computeMinSeperationTime
    dsimp only
    rw [hnone]
  · rw [moveLoop_step _ _ _ _ _ _ _ hloop, hbody]
  · exact World.obj_modify_ne _ _ _ _ (Ne.symm hne)
  · exact mHitLimit_advance _ _ _ _ _
  · exact fun j => vel_advance _ _ _ _ j

/-- Example for C17: the first of the two drifters hits the second at once; the two are not
closing, the root finder finds no time of separation, and the call stops with both balls where
they were. -/
theorem move_abandons_push_witness :
    computeMinSeperationTime exampleEnv drifters 0 StateIndex.ActualState 1 ⟨10, 0⟩ = -1 ∧
    move exampleEnv 8 6 1 0 StateIndex.ActualState false [] drifters =
      some { drifters with findFirstCollisionCalls := 1 } ∧
    moveLoop exampleEnv (fun _ _ _ _ => none) 0 StateIndex.ActualState false (7 + 1)
        (moveStart 1 [] drifters) =
      some { moveStart 1 [] drifters with
        tryCount := 1
        world := advance { drifters with findFirstCollisionCalls := 1 } 0
          StateIndex.ActualState 0 } :=
  ⟨by decide!, by decide!,
    (move_abandons_push exampleEnv (fun _ _ _ _ => none) 0 StateIndex.ActualState false
      (moveStart 1 [] drifters) 1
      (advance { drifters with findFirstCollisionCalls := 1 } 0 StateIndex.ActualState 0) 7
      (by decide!) (Or.inr (by decide!)) (by decide!) (by decide) (by decide!) (by decide!)
      (by decide!) (by decide!) (by decide!)).2.2.1⟩

/-- The velocities and positions after `computeCollisionResponseMoveObject` on two different
objects, with the two changes of velocity written out: each is `(1 + e) / 2 = 19 / 20` of the
difference of the two components along the collision vector. -/
theorem computeCollisionResponseMoveObject_explicit (env : Env) (w : World) (this hit : Nat)
    (s : StateIndex) (hthis : this < w.objs.length) (hhit : hit < w.objs.length)
    (hne : this ≠ hit) :
    (((computeCollisionResponseMoveObject env w this s hit).obj this).state s).vel =
      ((w.obj this).state s).vel.add
        (((((w.obj hit).state s).pos.sub ((w.obj this).state s).pos).normalize env.sqrt).scale
          (19 / 20 * (((w.obj hit).state s).vel.dot
              ((((w.obj hit).state s).pos.sub ((w.obj this).state s).pos).normalize env.sqrt) -
            ((w.obj this).state s).vel.dot
              ((((w.obj hit).state s).pos.sub ((w.obj this).state s).pos).normalize
                env.sqrt)))) ∧
    (((computeCollisionResponseMoveObject env w this s hit).obj hit).state s).vel =
      ((w.obj hit).state s).vel.add
        (((((w.obj hit).state s).pos.sub ((w.obj this).state s).pos).normalize env.sqrt).scale
          (19 / 20 * (((w.obj this).state s).vel.dot
              ((((w.obj hit).state s).pos.sub ((w.obj this).state s).pos).normalize env.sqrt) -
            ((w.obj hit).state s).vel.dot
              ((((w.obj hit).state s).pos.sub ((w.obj this).state s).pos).normalize
                env.sqrt)))) ∧
    (((computeCollisionResponseMoveObject env w this s hit).obj this).state s).pos =
      ((w.obj this).state s).pos ∧
    (((computeCollisionResponseMoveObject env w this s hit).obj hit).state s).pos =
      ((w.obj hit).state s).pos := by
  have hne2 : hit ≠ this := fun h => hne h.symm
  refine ⟨?_, ?_, ?_, ?_⟩
  · simp only [computeCollisionResponseMoveObject, World.obj_modify, World.length_modify,
      hne, hne2, hthis, false_and, if_false, true_and, if_true, and_self,
      GameObject.state_setVel_vel, collisionElasticity]
    congr 2
    ring
  · simp only [computeCollisionResponseMoveObject, World.obj_modify, World.length_modify,
      hne, hne2, hhit, false_and, if_false, true_and, if_true, and_self,
      GameObject.state_setVel_vel, collisionElasticity]
    congr 2
    ring
  · simp only [computeCollisionResponseMoveObject, World.obj_modify, World.length_modify,
      hne, hne2, hthis, false_and, if_false, true_and, if_true, and_self,
      GameObject.state_setVel_pos]
  · simp only [computeCollisionResponseMoveObject, World.obj_modify, World.length_modify,
      hne, hne2, hhit, false_and, if_false, true_and, if_true, and_self,
      GameObject.state_setVel_pos]

/-- A vector is its normalisation times the square root of its squared length. -/
theorem Point.eq_normalize_scale (sqrt : ℚ → ℚ) (d : Point) (hl : sqrt d.lenSquared ≠ 0) :
    d = (d.normalize sqrt).scale (sqrt d.lenSquared) := by
  have h := Point.scale_eq_normalize_scale sqrt d 1 hl
  rw [one_mul] at h
  rw [← h]
  simp [Point.scale]

/-- After the exchange along a unit vector `u`, the difference of the velocities along a
multiple of `u` is `-e` times what it was. -/
theorem Point.response_separates (u v1 v2 : Point) (σ : ℚ) (hu : u.dot u = 1) :
    (u.scale σ).dot
        ((v2.add (u.scale (19 / 20 * (v1.dot u - v2.dot u)))).sub
          (v1.add (u.scale (19 / 20 * (v2.dot u - v1.dot u))))) =
      -(9 / 10) * (u.scale σ).dot (v2.sub v1) := by
  have hu2 : u.x * u.x + u.y * u.y = 1 := hu
  simp only [Point.dot, Point.scale, Point.add, Point.sub]
  linear_combination
    (-(19 / 10) * σ * ((v2.x - v1.x) * u.x + (v2.y - v1.y) * u.y)) * hu2

/-- After the exchange along a unit vector `u`, the sum of the squared speeds has gone down by
`(1 - e^2) / 2 = 19 / 200` times the square of the difference of the components along `u`. -/
theorem Point.response_energy (u v1 v2 : Point) (hu : u.dot u = 1) :
    (v1.add (u.scale (19 / 20 * (v2.dot u - v1.dot u)))).lenSquared +
        (v2.add (u.scale (19 / 20 * (v1.dot u - v2.dot u)))).lenSquared =
      v1.lenSquared + v2.lenSquared - 19 / 200 * ((v1.dot u - v2.dot u) * (v1.dot u - v2.dot u)) := by
  have hu2 : u.x * u.x + u.y * u.y = 1 := hu
  simp only [Point.dot, Point.scale, Point.add, Point.lenSquared]
  linear_combination
    (2 * (19 / 20 * ((v1.x * u.x + v1.y * u.y) - (v2.x * u.x + v2.y * u.y))) *
      (19 / 20 * ((v1.x * u.x + v1.y * u.y) - (v2.x * u.x + v2.y * u.y)))) * hu2

theorem moveHitMoveObject_closing (env : Env)
    (recMove : ℚ → Nat → List Nat → World → Option World)
    (this : Nat) (s : StateIndex) (d : Bool) (st : LoopState) (w : World) (h : Nat) (ct : ℚ)
    (hguard : ¬ (d = true ∧ h ∈ st.displacerList))
    (hclosing : (((w.obj h).state s).pos.sub ((w.obj this).state s).pos).dot
      (((w.obj h).state s).vel.sub ((w.obj this).state s).vel) < 0) :
    ∃ b st1, moveHitMoveObject env recMove this s d st w h ct = some (b, st1) ∧
      st1.world = computeCollisionResponseMoveObject env w this s h := by
  unfold moveHitMoveObject
  dsimp only
  rw [if_neg (by simpa using hguard), if_pos hclosing]
  split_ifs
  · exact ⟨_, _, rfl, rfl⟩
  · exact ⟨_, _, rfl, rfl⟩

/-- C21: when the two entities are closing (`posDelta . velDelta < 0`, so they are at distinct
positions) and the cycle guard does not apply, the `isMoveObject` block of `move` applies
`computeCollisionResponseMoveObject`; the positions are left as they were, and with the new
velocities `posDelta . velDelta` is `-0.9` times its old value, hence positive: the two are
separating and the closing branch cannot be taken again at these positions. The square root is
assumed exact at the squared distance of the centres. -/
theorem move_response_separates (env : Env) (w : World) (this hit : Nat) (s : StateIndex)
    (hthis : this < w.objs.length) (hhit : hit < w.objs.length)
    (hclosing : (((w.obj hit).state s).pos.sub ((w.obj this).state s).pos).dot
      (((w.obj hit).state s).vel.sub ((w.obj this).state s).vel) < 0)
    (hsqrt : env.sqrt (((w.obj hit).state s).pos.sub ((w.obj this).state s).pos).lenSquared *
        env.sqrt (((w.obj hit).state s).pos.sub ((w.obj this).state s).pos).lenSquared =
      (((w.obj hit).state s).pos.sub ((w.obj this).state s).pos).lenSquared) :
    let w1 := computeCollisionResponseMoveObject env w this s hit
    (∀ (recMove : ℚ → Nat → List Nat → World → Option World) (d : Bool) (st : LoopState)
        (ct : ℚ), ¬ (d = true ∧ hit ∈ st.displacerList) →
      ∃ b st1, moveHitMoveObject env recMove this s d st w hit ct = some (b, st1) ∧
        st1.world = w1) ∧
    ((w1.obj hit).state s).pos.sub ((w1.obj this).state s).pos =
      ((w.obj hit).state s).pos.sub ((w.obj this).state s).pos ∧
    (((w1.obj hit).state s).pos.sub ((w1.obj this).state s).pos).dot
        (((w1.obj hit).state s).vel.sub ((w1.obj this).state s).vel) =
      -(9 / 10) * (((w.obj hit).state s).pos.sub ((w.obj this).state s).pos).dot
        (((w.obj hit).state s).vel.sub ((w.obj this).state s).vel) ∧
    0 < (((w1.obj hit).state s).pos.sub ((w1.obj this).state s).pos).dot
        (((w1.obj hit).state s).vel.sub ((w1.obj this).state s).vel) ∧
    ¬ ((((w1.obj hit).state s).pos.sub ((w1.obj this).state s).pos).dot
        (((w1.obj hit).state s).vel.sub ((w1.obj this).state s).vel) < 0) := by
  intro w1
  have hpos : ((w.obj hit).state s).pos ≠ ((w.obj this).state s).pos := by
    intro h
    rw [h] at hclosing
    simp [Point.sub, Point.dot] at hclosing
  have hne : this ≠ hit := by
    intro h
    apply hpos
    rw [h]
  have hlen := Point.lenSquared_pos_of_ne hpos
  have hl : env.sqrt (((w.obj hit).state s).pos.sub ((w.obj this).state s).pos).lenSquared ≠
      0 := by
    intro h0
    rw [h0] at hsqrt
    linarith
  have hu := Point.normalize_dot_self env.sqrt _ hlen hsqrt
  obtain ⟨e1, e2, e3, e4⟩ :=
    computeCollisionResponseMoveObject_explicit env w this hit s hthis hhit hne
  have key := Point.response_separates
    ((((w.obj hit).state s).pos.sub ((w.obj this).state s).pos).normalize env.sqrt)
    ((w.obj this).state s).vel ((w.obj hit).state s).vel
    (env.sqrt (((w.obj hit).state s).pos.sub ((w.obj this).state s).pos).lenSquared) hu
  rw [← Point.eq_normalize_scale env.sqrt _ hl] at key
  have hdot : (((w1.obj hit).state s).pos.sub ((w1.obj this).state s).pos).dot
        (((w1.obj hit).state s).vel.sub ((w1.obj this).state s).vel) =
      -(9 / 10) * (((w.obj hit).state s).pos.sub ((w.obj this).state s).pos).dot
        (((w.obj hit).state s).vel.sub ((w.obj this).state s).vel) := by
    show (((((computeCollisionResponseMoveObject env w this s hit).obj hit).state s).pos.sub
      (((computeCollisionResponseMoveObject env w this s hit).obj this).state s).pos).dot
        ((((computeCollisionResponseMoveObject env w this s hit).obj hit).state s).vel.sub
          (((computeCollisionResponseMoveObject env w this s hit).obj this).state s).vel)) = _
    rw [e1, e2, e3, e4]
    exact key
  refine ⟨?_, ?_, hdot, ?_, ?_⟩
  · intro recMove d st ct hguard
    exact moveHitMoveObject_closing env recMove this s d st w hit ct hguard hclosing
  · show ((((computeCollisionResponseMoveObject env w this s hit).obj hit).state s).pos.sub
      (((computeCollisionResponseMoveObject env w this s hit).obj this).state s).pos) = _
    rw [e3, e4]
  · rw [hdot]
    linarith
  · rw [hdot]
    linarith

/-- Example for C21: the two balls of `twoBalls` are closing with `posDelta . velDelta = -20`;
after the response the value is `18`. -/
theorem move_response_separates_witness :
    (((twoBalls.obj 1).state StateIndex.ActualState).pos.sub
        ((twoBalls.obj 0).state StateIndex.ActualState).pos).dot
      (((twoBalls.obj 1).state StateIndex.ActualState).vel.sub
        ((twoBalls.obj 0).state StateIndex.ActualState).vel) = -20 ∧
    ((((computeCollisionResponseMoveObject exampleEnv twoBalls 0 StateIndex.ActualState 1).obj
          1).state StateIndex.ActualState).pos.sub
        (((computeCollisionResponseMoveObject exampleEnv twoBalls 0 StateIndex.ActualState 1).obj
          0).state StateIndex.ActualState).pos).dot
      ((((computeCollisionResponseMoveObject exampleEnv twoBalls 0 StateIndex.ActualState 1).obj
          1).state StateIndex.ActualState).vel.sub
        (((computeCollisionResponseMoveObject exampleEnv twoBalls 0 StateIndex.ActualState 1).obj
          0).state StateIndex.ActualState).vel) =
      -(9 / 10) * (((twoBalls.obj 1).state StateIndex.ActualState).pos.sub
        ((twoBalls.obj 0).state StateIndex.ActualState).pos).dot
      (((twoBalls.obj 1).state StateIndex.ActualState).vel.sub
        ((twoBalls.obj 0).state StateIndex.ActualState).vel) :=
  ⟨by decide!,
    (move_response_separates exampleEnv twoBalls 0 1 StateIndex.ActualState (by decide)
      (by decide) (by decide!) (by decide!)).2.2.1⟩

/-- C22: for two entities at distinct positions, the sum of the squared speeds after
`computeCollisionResponseMoveObject` is the sum before minus `(1 - e^2) / 2 = 0.095` times the
square of the difference of the two components along the contact axis; so it never grows, and
it is unchanged exactly when the two velocities have the same component along the contact
axis. The square root is assumed exact at the squared distance of the centres. -/
theorem computeCollisionResponseMoveObject_energy (env : Env) (w : World) (this hit : Nat)
    (s : StateIndex) (hthis : this < w.objs.length) (hhit : hit < w.objs.length)
    (hpos : ((w.obj hit).state s).pos ≠ ((w.obj this).state s).pos)
    (hsqrt : env.sqrt (((w.obj hit).state s).pos.sub ((w.obj this).state s).pos).lenSquared *
        env.sqrt (((w.obj hit).state s).pos.sub ((w.obj this).state s).pos).lenSquared =
      (((w.obj hit).state s).pos.sub ((w.obj this).state s).pos).lenSquared) :
    let u := (((w.obj hit).state s).pos.sub ((w.obj this).state s).pos).normalize env.sqrt
    let v1 := ((w.obj this).state s).vel
    let v2 := ((w.obj hit).state s).vel
    let w1 := computeCollisionResponseMoveObject env w this s hit
    ((w1.obj this).state s).vel.lenSquared + ((w1.obj hit).state s).vel.lenSquared =
      v1.lenSquared + v2.lenSquared -
        19 / 200 * ((v1.dot u - v2.dot u) * (v1.dot u - v2.dot u)) ∧
    ((w1.obj this).state s).vel.lenSquared + ((w1.obj hit).state s).vel.lenSquared ≤
      v1.lenSquared + v2.lenSquared ∧
    (((w1.obj this).state s).vel.lenSquared + ((w1.obj hit).state s).vel.lenSquared =
      v1.lenSquared + v2.lenSquared ↔ v1.dot u = v2.dot u) := by
  intro u v1 v2 w1
  have hne : this ≠ hit := by
    intro h
    apply hpos
    rw [h]
  have hu : u.dot u = 1 :=
    Point.normalize_dot_self env.sqrt _ (Point.lenSquared_pos_of_ne hpos) hsqrt
  obtain ⟨e1, e2, -, -⟩ :=
    computeCollisionResponseMoveObject_explicit env w this hit s hthis hhit hne
  have key : ((w1.obj this).state s).vel.lenSquared + ((w1.obj hit).state s).vel.lenSquared =
      v1.lenSquared + v2.lenSquared -
        19 / 200 * ((v1.dot u - v2.dot u) * (v1.dot u - v2.dot u)) := by
    show (((computeCollisionResponseMoveObject env w this s hit).obj this).state s).vel.lenSquared
      + (((computeCollisionResponseMoveObject env w this s hit).obj hit).state s).vel.lenSquared
      = _
    rw [e1, e2]
    exact Point.response_energy u v1 v2 hu
  refine ⟨key, ?_, ?_⟩
  · rw [key]
    nlinarith [mul_self_nonneg (v1.dot u - v2.dot u)]
  · rw [key]
    constructor
    · intro h
      have h0 : (v1.dot u - v2.dot u) * (v1.dot u - v2.dot u) = 0 := by linarith
      have := mul_self_eq_zero.mp h0
      linarith
    · intro h
      rw [h]
      ring

/-- Example for C22: the two balls of `twoBalls` have squared speeds that sum to 210 before the
response and to 172 after it. -/
theorem computeCollisionResponseMoveObject_energy_witness :
    ((twoBalls.obj 0).state StateIndex.ActualState).vel.lenSquared +
      ((twoBalls.obj 1).state StateIndex.ActualState).vel.lenSquared = 210 ∧
    (((computeCollisionResponseMoveObject exampleEnv twoBalls 0 StateIndex.ActualState 1).obj
        0).state StateIndex.ActualState).vel.lenSquared +
      (((computeCollisionResponseMoveObject exampleEnv twoBalls 0 StateIndex.ActualState 1).obj
        1).state StateIndex.ActualState).vel.lenSquared = 172 ∧
    (((computeCollisionResponseMoveObject exampleEnv twoBalls 0 StateIndex.ActualState 1).obj
        0).state StateIndex.ActualState).vel.lenSquared +
      (((computeCollisionResponseMoveObject exampleEnv twoBalls 0 StateIndex.ActualState 1).obj
        1).state StateIndex.ActualState).vel.lenSquared ≤
      ((twoBalls.obj 0).state StateIndex.ActualState).vel.lenSquared +
        ((twoBalls.obj 1).state StateIndex.ActualState).vel.lenSquared :=
  ⟨by decide!, by decide!,
    (computeCollisionResponseMoveObject_energy exampleEnv twoBalls 0 1 StateIndex.ActualState
      (by decide) (by decide) (by decide!) (by decide!)).2.1⟩

theorem Point.normalize_sub_comm (sqrt : ℚ → ℚ) (a b : Point) :
    (a.sub b).normalize sqrt = ((b.sub a).normalize sqrt).scale (-1) := by
  have hl : (a.sub b).lenSquared = (b.sub a).lenSquared := by
    simp only [Point.lenSquared, Point.sub]
    ring
  simp only [Point.normalize, Point.len, hl]
  simp only [Point.scale, Point.sub, Point.mk.injEq]
  constructor <;> ring

/-- C23: the result of the entity-vs-entity response does not depend on the orientation of the
contact axis: with the unit vector from the struck entity to the mover (as the comment in the
source says) the world after the response, and so the final velocity of every entity, is the
one that the code computes with the unit vector from the mover to the struck entity. This
holds for every square root function. -/
theorem computeCollisionResponseMoveObject_orientation (env : Env) (w : World) (this hit : Nat)
    (s : StateIndex) :
    computeCollisionResponseMoveObjectReversed env w this s hit =
      computeCollisionResponseMoveObject env w this s hit := by
  unfold computeCollisionResponseMoveObjectReversed computeCollisionResponseMoveObject
  dsimp only
  rw [Point.normalize_sub_comm env.sqrt ((w.obj this).state s).pos ((w.obj hit).state s).pos]
  generalize (((w.obj hit).state s).pos.sub ((w.obj this).state s).pos).normalize env.sqrt = u
  have h1 : ∀ (v : Point), v.dot (u.scale (-1)) = -(v.dot u) := by
    intro v
    simp only [Point.dot, Point.scale]
    ring
  have h2 : ∀ (k : ℚ), (u.scale (-1)).scale k = u.scale (-k) := by
    intro k
    simp only [Point.scale, Point.mk.injEq]
    constructor <;> ring
  simp only [h1, h2]
  congr 3
  · funext o
    congr 3
    ring
  · funext o
    congr 3
    ring

/-! ## The velocity after a collision-free advance (C24) -/

/-- After `n` iterations that went on, the loop goes on from the state they reached. -/
theorem moveLoop_of_moveIterations (env : Env)
    (recMove : ℚ → Nat → List Nat → World → Option World)
    (this : Nat) (s : StateIndex) (d : Bool) (fuel : Nat) (n : Nat) :
    ∀ st st1 : LoopState, moveIterations env recMove this s d n st = some st1 →
      moveLoop env recMove this s d (n + fuel) st = moveLoop env recMove this s d fuel st1 := by
  induction n with
  | zero =>
    intro st st1 h
    simp only [moveIterations, Option.some.injEq] at h
    rw [h, Nat.zero_add]
  | succ n ih =>
    intro st st1 h
    rw [moveIterations] at h
    split_ifs at h with hc
    rw [show n + 1 + fuel = (n + fuel) + 1 by omega, moveLoop_step _ _ _ _ _ _ _ hc]
    split at h
    · rename_i st2 hb
      rw [hb]
      exact ih st2 st1 h
    · cases h

theorem state_enableDisabled (dl : List Nat) (s : StateIndex) :
    ∀ (w : World) (j : Nat), ((enableDisabled dl w).obj j).state s = (w.obj j).state s := by
  induction dl with
  | nil => intro w j; rfl
  | cons i rest ih =>
    intro w j
    rw [enableDisabled, ih, World.obj_modify]
    split_ifs
    · cases s <;> rfl
    · rfl

theorem length_enableDisabled (dl : List Nat) :
    ∀ (w : World), (enableDisabled dl w).objs.length = w.objs.length := by
  induction dl with
  | nil => intro w; rfl
  | cons i rest ih =>
    intro w
    rw [enableDisabled, ih, World.length_modify]

/-- The state of the mover after the code that follows the loop: the position is that at the
end of the loop, and the velocity is zero when `tryCount == 8` and that at the end of the loop
otherwise. -/
theorem state_moveFinish (this : Nat) (s : StateIndex) (st : LoopState)
    (hthis : this < st.world.objs.length) :
    (((moveFinish this s st).obj this).state s).pos = ((st.world.obj this).state s).pos ∧
    (((moveFinish this s st).obj this).state s).vel =
      if st.tryCount = tryCountCap then Point.zero else ((st.world.obj this).state s).vel := by
  unfold moveFinish
  dsimp only
  have hlen : this < (enableDisabled st.disabledList st.world).objs.length := by
    rw [length_enableDisabled]
    exact hthis
  split_ifs with hc
  · rw [World.obj_modify_self _ _ _ hlen, GameObject.state_setVel_pos,
      GameObject.state_setVel_vel, state_enableDisabled]
    exact ⟨rfl, rfl⟩
  · rw [state_enableDisabled]
    exact ⟨rfl, rfl⟩

/-- C24 as stated fails: a ball with velocity `(1, 0)` and a budget of one second meets an
obstacle in each of the first seven iterations of the loop, each after half of the remaining
path; the eighth iteration finds no collision and advances the ball by
`velocity * remaining time` to `(1, 0)`. This eighth iteration has brought `tryCount` to 8, so
`move` zeroes the velocity: at return it is `(0, 0)`, not the `(1, 0)` used for the advance. -/
theorem move_free_advance_velocity_counterexample :
    moveIterations thresholdEnv
        (fun t that l w1 => move thresholdEnv 8 5 t that StateIndex.ActualState true l w1)
        0 StateIndex.ActualState false 7 (moveStart 1 [] ballAndOther) =
      some { world :=
               { objs := [(ball ⟨0, 0⟩ ⟨1, 0⟩).setPos StateIndex.ActualState ⟨127 / 128, 0⟩,
                   obstacle 3]
                 findFirstCollisionCalls := 7 }
             moveTime := 1 / 128
             tryCount := 7
             disabledList := []
             displacerList := [] } ∧
    (findFirstCollision thresholdEnv
        { objs := [(ball ⟨0, 0⟩ ⟨1, 0⟩).setPos StateIndex.ActualState ⟨127 / 128, 0⟩,
            obstacle 3]
          findFirstCollisionCalls := 7 }
        0 StateIndex.ActualState (1 / 128) Point.zero).collisionObject = none ∧
    (move thresholdEnv 8 6 1 0 StateIndex.ActualState false [] ballAndOther).map
        (fun w => (((w.obj 0).state StateIndex.ActualState).pos,
          ((w.obj 0).state StateIndex.ActualState).vel)) =
      some ((⟨127 / 128, 0⟩ : Point).add ((⟨1, 0⟩ : Point).scale (1 / 128)), ⟨0, 0⟩) := by
  refine ⟨by decide!, by decide!, by decide!⟩

/-- C24 (amended): for every call of `move` whose loop, after `n` iterations that went on,
runs a final iteration that finds no collision, the call returns with the position advanced by
`velocity * remaining time`, and the velocity at return equals the velocity used for that
advance unless that iteration has brought `tryCount` to 8, in which case the velocity at
return is `(0, 0)`. -/
theorem move_free_advance_velocity (env : Env) (n k depth : Nat) (moveTime : ℚ) (this : Nat)
    (s : StateIndex) (d : Bool) (l : List Nat) (w : World) (st : LoopState)
    (hiter : moveIterations env
      (fun t that l1 w1 => move env (n + (k + 1)) depth t that s true l1 w1)
      this s d n (moveStart moveTime l w) = some st)
    (hthis : this < st.world.objs.length)
    (hloop : st.moveTime > moveTimeEpsilon ∧ st.tryCount < tryCountCap)
    (hv : d = true ∨ ¬ ((st.world.obj this).state s).vel.len env.sqrt < velocityEpsilon)
    (hfree : (findFirstCollision env st.world this s st.moveTime Point.zero).collisionObject =
      none) :
    ∃ w1, move env (n + (k + 1)) (depth + 1) moveTime this s d l w = some w1 ∧
      ((w1.obj this).state s).pos =
        ((st.world.obj this).state s).pos.add
          (((st.world.obj this).state s).vel.scale st.moveTime) ∧
      ((w1.obj this).state s).vel =
        if st.tryCount + 1 = tryCountCap then Point.zero
        else ((st.world.obj this).state s).vel := by
  have hlen : this < ({ st.world with
      findFirstCollisionCalls := st.world.findFirstCollisionCalls + 1 } : World).objs.length :=
    hthis
  have hlen2 : this < (advance { st.world with
      findFirstCollisionCalls := st.world.findFirstCollisionCalls + 1 } this s
      st.moveTime).objs.length := by
    rw [advance, World.length_modify]
    exact hthis
  obtain ⟨f1, f2⟩ := state_moveFinish this s
    { st with
      tryCount := st.tryCount + 1
      world := advance { st.world with
        findFirstCollisionCalls := st.world.findFirstCollisionCalls + 1 } this s st.moveTime }
    hlen2
  refine ⟨moveFinish this s { st with
      tryCount := st.tryCount + 1
      world := advance { st.world with
        findFirstCollisionCalls := st.world.findFirstCollisionCalls + 1 } this s
        st.moveTime }, ?_, ?_, ?_⟩
  · simp only [move]
    rw [moveLoop_of_moveIterations _ _ _ _ _ (k + 1) n _ _ hiter,
      moveLoop_step _ _ _ _ _ _ _ hloop, moveBody_free _ _ _ _ _ _ hv hfree]
  · rw [f1]
    dsimp only
    rw [advance, World.obj_modify_self _ _ _ hlen, GameObject.state_setPos_pos]
    rfl
  · rw [f2]
    dsimp only
    rw [advance, World.obj_modify_self _ _ _ hlen, GameObject.state_setPos_vel]
    rfl

/-- Example for C24 (amended): the first ball of `twoBalls` bounces off the second in the first
iteration and advances freely in the second one; it returns with the velocity `(-9, 3)` of
that advance, at `(-9, 3)`. -/
theorem move_free_advance_velocity_witness :
    ∃ w1, move exampleEnv (1 + (6 + 1)) (5 + 1) 1 0 StateIndex.ActualState false [] twoBalls =
        some w1 ∧
      ((w1.obj 0).state StateIndex.ActualState).pos =
        (⟨0, 0⟩ : Point).add ((⟨-9, 3⟩ : Point).scale 1) ∧
      ((w1.obj 0).state StateIndex.ActualState).vel = ⟨-9, 3⟩ := by
  obtain ⟨w1, h1, h2, h3⟩ :=
    move_free_advance_velocity exampleEnv 1 6 5 1 0 StateIndex.ActualState false [] twoBalls
      { world := computeCollisionResponseMoveObject exampleEnv
          (advance { twoBalls with findFirstCollisionCalls := 1 } 0 StateIndex.ActualState 0)
          0 StateIndex.ActualState 1
        moveTime := 1 - 0
        tryCount := 1
        disabledList := []
        displacerList := [] }
      (by decide!) (by decide) (by decide!) (Or.inr (by decide!)) (by decide!)
  exact ⟨w1, h1, h2.trans (by decide!), h3.trans (by decide!)⟩

/-! ## The hit limit as a budget of pushes (C16) -/

end Zap
